import Mathlib

/-!
# Tag-driven dispatch of the CUDA fuser IR (`torch/csrc/jit/codegen/cuda/dispatch.cpp`)

A shallow embedding of the dispatch routines (`Val::dispatch`, `Expr::dispatch`,
`Statement::dispatch`, their `constDispatch` and `mutatorDispatch` siblings), of the
umbrella methods of `OptOutDispatch` / `OptOutConstDispatch` / `OptOutMutator`, and of
the mutation record of `OptOutMutator`.

Conventions of the embedding.

* A C++ member function of a handler object that may change the object and may throw
  is a function `σ → Outcome σ α`: `σ` is the state of the handler object, `returned`
  carries the return value and the state after a normal return, `threw` carries the
  message handed to `TORCH_INTERNAL_ASSERT` and the state at the point of the throw.
* The overload set `handle(Bool*) … handle(kir::TensorIndex*)` of a handler is one
  function indexed by the static node class (`ValClass`, `ExprClass`); the call
  `ptr(handler)->handle(val->as<Bool>())` is `handler.handleValAs ValClass.Bool val`.
* A node pointer is the node value itself; the `name` field stands for the address, so
  two nodes are the same pointer exactly when they are equal.
-/

namespace Fuser

/-! ## Tags (declared in `type.h`, which is not among the sources) -/

/-- Modelled from the spec: the `ValType` enumeration of `type.h` is missing; these are
the seven coarse Value tags that the `case` labels of `Val::dispatch` name, and `other`
stands for every enumerator or raw value that no `case` label names (the `default:`
branch). -/
inductive ValType where
  | Scalar
  | NamedScalar
  | IterDomain
  | TensorDomain
  | TensorView
  | Predicate
  | TensorIndex
  | other (raw : Nat)
  deriving DecidableEq, Repr

/-- Modelled from the spec: the `DataType` enumeration of `type.h` is missing; the
three data kinds that the inner `switch` of `Val::dispatch` names, and `other` for
every data kind it does not name (the inner `default:` branch). -/
inductive DataType where
  | Bool
  | Double
  | Int
  | other (raw : Nat)
  deriving DecidableEq, Repr

/-- Modelled from the spec: the `ExprType` enumeration of `type.h` is missing; the
twenty-one Operation tags that the `case` labels of `Expr::dispatch` name, and `other`
for every enumerator or raw value that no `case` label names. -/
inductive ExprType where
  | UnaryOp
  | BinaryOp
  | TernaryOp
  | ReductionOp
  | WelfordOp
  | BroadcastOp
  | Split
  | Merge
  | TransposeOp
  | ShiftOp
  | GatherOp
  | ViewOp
  | Allocate
  | Sync
  | InitMagicZero
  | UpdateMagicZero
  | ForLoop
  | IfThenElse
  | GridReduction
  | GridBroadcast
  | GridWelford
  | other (raw : Nat)
  deriving DecidableEq, Repr

/-! ## Nodes (declared in `ir_base_nodes.h`, which is not among the sources) -/

/-- Modelled from the spec: the class `Val` is missing; a Value node as the dispatch
routines see it: its identity, `*getValType()` and `*getDataType()`. -/
structure Val where
  name : Nat
  vtype : ValType
  dtype : DataType
  deriving DecidableEq, Repr

/-- Modelled from the spec: the class `Expr` is missing; an Operation node as the
dispatch routines see it: its identity and `*getExprType()`. -/
structure Expr where
  name : Nat
  etype : ExprType
  deriving DecidableEq, Repr

/-- Modelled from the spec: the class `Statement` is missing; a node is a Value, an
Operation, or (what the last branch of `Statement::dispatch` guards against) a bare
statement that is neither. -/
inductive Statement where
  | val (v : Val)
  | expr (e : Expr)
  | bare (name : Nat)
  deriving DecidableEq, Repr

/-- The query `stmt->isVal()`. -/
def Statement.isVal : Statement → Bool
  | .val _ => true
  | _ => false

/-- The query `stmt->isExpr()`. -/
def Statement.isExpr : Statement → Bool
  | .expr _ => true
  | _ => false

/-- The static node classes of the Value overloads `handle(Bool*)`, …,
`handle(kir::TensorIndex*)`, in the order of `dispatch.cpp`. -/
inductive ValClass where
  | Bool
  | Double
  | Int
  | NamedScalar
  | IterDomain
  | TensorDomain
  | TensorView
  | Predicate
  | TensorIndex
  deriving DecidableEq, Repr

/-- The static node classes of the Operation overloads `handle(UnaryOp*)`, …,
`handle(kir::GridWelford*)`, in the order of `dispatch.cpp`. -/
inductive ExprClass where
  | UnaryOp
  | BinaryOp
  | TernaryOp
  | ReductionOp
  | WelfordOp
  | BroadcastOp
  | Split
  | Merge
  | TransposeOp
  | ShiftOp
  | GatherOp
  | ViewOp
  | Allocate
  | Sync
  | InitMagicZero
  | UpdateMagicZero
  | ForLoop
  | IfThenElse
  | GridReduction
  | GridBroadcast
  | GridWelford
  deriving DecidableEq, Repr

/-! ## Outcomes and handlers -/

/-- Result of running a member function of a handler object whose state has type `σ`:
a normal return with a value, or a `c10::Error` thrown by `TORCH_INTERNAL_ASSERT`; in
both cases together with the state the object is left in. -/
inductive Outcome (σ α : Type) where
  | returned (value : α) (state : σ)
  | threw (what : String) (state : σ)
  deriving DecidableEq, Repr

/-- The state a call leaves the handler object in. -/
def Outcome.state {σ α : Type} : Outcome σ α → σ
  | .returned _ s => s
  | .threw _ s => s

/-- Message of the failing assertion that closes the three `Val` dispatch routines. -/
def unknownValtype : String := "Unknown valtype in dispatch!"

/-- Message of the failing assertion in the `default:` branch of the three `Expr`
dispatch routines. -/
def unknownExprtype : String := "Unknown exprtype in dispatch!"

/-- Message of the failing assertion that closes the three `Statement` dispatch
routines. -/
def unknownStmttype : String := "Unknown stmttype in dispatch!"

/-- The per-variant `handle` overloads of a visitor whose state is `σ`: what
`Val::dispatch` and `Expr::dispatch` require of their template parameter `T`. -/
structure VariantHandler (σ : Type) where
  handleValAs : ValClass → Val → σ → Outcome σ Unit
  handleExprAs : ExprClass → Expr → σ → Outcome σ Unit

/-- A visitor with, in addition, the umbrella overloads `handle(Val*)` and
`handle(Expr*)`: what `Statement::dispatch` requires of its template parameter `T`. -/
structure Handler (σ : Type) extends VariantHandler σ where
  handleVal : Val → σ → Outcome σ Unit
  handleExpr : Expr → σ → Outcome σ Unit

/-! ## The mutable dispatch routines -/

/-- The routine `Val::dispatch(T handler, Val* val)`. -/
def Val.dispatch {σ : Type} (handler : VariantHandler σ) (val : Val) (s : σ) :
    Outcome σ Unit :=
  match val.vtype with
  | .Scalar =>
    match val.dtype with
    | .Bool => handler.handleValAs .Bool val s
    | .Double => handler.handleValAs .Double val s
    | .Int => handler.handleValAs .Int val s
    | _ => .threw unknownValtype s
  | .NamedScalar => handler.handleValAs .NamedScalar val s
  | .IterDomain => handler.handleValAs .IterDomain val s
  | .TensorDomain => handler.handleValAs .TensorDomain val s
  | .TensorView => handler.handleValAs .TensorView val s
  | .Predicate => handler.handleValAs .Predicate val s
  | .TensorIndex => handler.handleValAs .TensorIndex val s
  | _ => .threw unknownValtype s

/-- The routine `Expr::dispatch(T handler, Expr* expr)`. -/
def Expr.dispatch {σ : Type} (handler : VariantHandler σ) (expr : Expr) (s : σ) :
    Outcome σ Unit :=
  match expr.etype with
  | .UnaryOp => handler.handleExprAs .UnaryOp expr s
  | .BinaryOp => handler.handleExprAs .BinaryOp expr s
  | .TernaryOp => handler.handleExprAs .TernaryOp expr s
  | .ReductionOp => handler.handleExprAs .ReductionOp expr s
  | .WelfordOp => handler.handleExprAs .WelfordOp expr s
  | .BroadcastOp => handler.handleExprAs .BroadcastOp expr s
  | .Split => handler.handleExprAs .Split expr s
  | .Merge => handler.handleExprAs .Merge expr s
  | .TransposeOp => handler.handleExprAs .TransposeOp expr s
  | .ShiftOp => handler.handleExprAs .ShiftOp expr s
  | .GatherOp => handler.handleExprAs .GatherOp expr s
  | .ViewOp => handler.handleExprAs .ViewOp expr s
  | .Allocate => handler.handleExprAs .Allocate expr s
  | .Sync => handler.handleExprAs .Sync expr s
  | .InitMagicZero => handler.handleExprAs .InitMagicZero expr s
  | .UpdateMagicZero => handler.handleExprAs .UpdateMagicZero expr s
  | .ForLoop => handler.handleExprAs .ForLoop expr s
  | .IfThenElse => handler.handleExprAs .IfThenElse expr s
  | .GridReduction => handler.handleExprAs .GridReduction expr s
  | .GridBroadcast => handler.handleExprAs .GridBroadcast expr s
  | .GridWelford => handler.handleExprAs .GridWelford expr s
  | _ => .threw unknownExprtype s

/-- The routine `Statement::dispatch(T handler, Statement* stmt)`: the pairs
`isVal()` / `as<Val>()` and `isExpr()` / `as<Expr>()` are the first two patterns. -/
def Statement.dispatch {σ : Type} (handler : Handler σ) (stmt : Statement) (s : σ) :
    Outcome σ Unit :=
  match stmt with
  | .val v => handler.handleVal v s
  | .expr e => handler.handleExpr e s
  | .bare _ => .threw unknownStmttype s

/-! ## The read-only dispatch routines -/

/-- The routine `Val::constDispatch(T handler, const Val* val)`. -/
def Val.constDispatch {σ : Type} (handler : VariantHandler σ) (val : Val) (s : σ) :
    Outcome σ Unit :=
  match val.vtype with
  | .Scalar =>
    match val.dtype with
    | .Bool => handler.handleValAs .Bool val s
    | .Double => handler.handleValAs .Double val s
    | .Int => handler.handleValAs .Int val s
    | _ => .threw unknownValtype s
  | .NamedScalar => handler.handleValAs .NamedScalar val s
  | .IterDomain => handler.handleValAs .IterDomain val s
  | .TensorDomain => handler.handleValAs .TensorDomain val s
  | .TensorView => handler.handleValAs .TensorView val s
  | .Predicate => handler.handleValAs .Predicate val s
  | .TensorIndex => handler.handleValAs .TensorIndex val s
  | _ => .threw unknownValtype s

/-- The routine `Expr::constDispatch(T handler, const Expr* expr)`. -/
def Expr.constDispatch {σ : Type} (handler : VariantHandler σ) (expr : Expr) (s : σ) :
    Outcome σ Unit :=
  match expr.etype with
  | .UnaryOp => handler.handleExprAs .UnaryOp expr s
  | .BinaryOp => handler.handleExprAs .BinaryOp expr s
  | .TernaryOp => handler.handleExprAs .TernaryOp expr s
  | .ReductionOp => handler.handleExprAs .ReductionOp expr s
  | .WelfordOp => handler.handleExprAs .WelfordOp expr s
  | .BroadcastOp => handler.handleExprAs .BroadcastOp expr s
  | .Split => handler.handleExprAs .Split expr s
  | .Merge => handler.handleExprAs .Merge expr s
  | .TransposeOp => handler.handleExprAs .TransposeOp expr s
  | .ShiftOp => handler.handleExprAs .ShiftOp expr s
  | .GatherOp => handler.handleExprAs .GatherOp expr s
  | .ViewOp => handler.handleExprAs .ViewOp expr s
  | .Allocate => handler.handleExprAs .Allocate expr s
  | .Sync => handler.handleExprAs .Sync expr s
  | .InitMagicZero => handler.handleExprAs .InitMagicZero expr s
  | .UpdateMagicZero => handler.handleExprAs .UpdateMagicZero expr s
  | .ForLoop => handler.handleExprAs .ForLoop expr s
  | .IfThenElse => handler.handleExprAs .IfThenElse expr s
  | .GridReduction => handler.handleExprAs .GridReduction expr s
  | .GridBroadcast => handler.handleExprAs .GridBroadcast expr s
  | .GridWelford => handler.handleExprAs .GridWelford expr s
  | _ => .threw unknownExprtype s

/-- The routine `Statement::constDispatch(T handler, const Statement* stmt)`. -/
def Statement.constDispatch {σ : Type} (handler : Handler σ) (stmt : Statement)
    (s : σ) : Outcome σ Unit :=
  match stmt with
  | .val v => handler.handleVal v s
  | .expr e => handler.handleExpr e s
  | .bare _ => .threw unknownStmttype s

/-! ## Umbrella methods of the opt-out visitors -/

/-- The method `OptOutDispatch::handle(Val* v)`, on an object whose per-variant
overloads are `self`. -/
def OptOutDispatch.handleVal {σ : Type} (self : VariantHandler σ) (v : Val) (s : σ) :
    Outcome σ Unit :=
  Val.dispatch self v s

/-- The method `OptOutDispatch::handle(Expr* e)`. -/
def OptOutDispatch.handleExpr {σ : Type} (self : VariantHandler σ) (e : Expr) (s : σ) :
    Outcome σ Unit :=
  Expr.dispatch self e s

/-- An `OptOutDispatch` object as handed to `Statement::dispatch` (the `this` of
`handle(Statement*)`): its per-variant overloads with the two umbrella overloads
above. -/
def OptOutDispatch.this {σ : Type} (self : VariantHandler σ) : Handler σ where
  toVariantHandler := self
  handleVal := OptOutDispatch.handleVal self
  handleExpr := OptOutDispatch.handleExpr self

/-- The method `OptOutDispatch::handle(Statement* s)`. -/
def OptOutDispatch.handle {σ : Type} (self : VariantHandler σ) (stmt : Statement)
    (s : σ) : Outcome σ Unit :=
  Statement.dispatch (OptOutDispatch.this self) stmt s

/-- The method `OptOutConstDispatch::handle(const Val* v)`. -/
def OptOutConstDispatch.handleVal {σ : Type} (self : VariantHandler σ) (v : Val)
    (s : σ) : Outcome σ Unit :=
  Val.constDispatch self v s

/-- The method `OptOutConstDispatch::handle(const Expr* e)`. -/
def OptOutConstDispatch.handleExpr {σ : Type} (self : VariantHandler σ) (e : Expr)
    (s : σ) : Outcome σ Unit :=
  Expr.constDispatch self e s

/-- An `OptOutConstDispatch` object as handed to `Statement::constDispatch`. -/
def OptOutConstDispatch.this {σ : Type} (self : VariantHandler σ) : Handler σ where
  toVariantHandler := self
  handleVal := OptOutConstDispatch.handleVal self
  handleExpr := OptOutConstDispatch.handleExpr self

/-- The method `OptOutConstDispatch::handle(const Statement* s)`. -/
def OptOutConstDispatch.handle {σ : Type} (self : VariantHandler σ)
    (stmt : Statement) (s : σ) : Outcome σ Unit :=
  Statement.constDispatch (OptOutConstDispatch.this self) stmt s

/-! ## Vocabulary of the claims about dispatch -/

/-- A `handle` call as an observer sees it: which overload ran, on which node. -/
inductive Invocation where
  | val (c : ValClass) (v : Val)
  | expr (c : ExprClass) (e : Expr)
  deriving DecidableEq, Repr

/-- A visitor that overrides every variant method to append its own invocation to a
log; the log is the whole state of the visitor. -/
def recorder : VariantHandler (List Invocation) where
  handleValAs c v log := .returned () (log ++ [.val c v])
  handleExprAs c e log := .returned () (log ++ [.expr c e])

/-- The Operation tag that a node of a given Operation variant carries. -/
def ExprClass.tag : ExprClass → ExprType
  | .UnaryOp => .UnaryOp
  | .BinaryOp => .BinaryOp
  | .TernaryOp => .TernaryOp
  | .ReductionOp => .ReductionOp
  | .WelfordOp => .WelfordOp
  | .BroadcastOp => .BroadcastOp
  | .Split => .Split
  | .Merge => .Merge
  | .TransposeOp => .TransposeOp
  | .ShiftOp => .ShiftOp
  | .GatherOp => .GatherOp
  | .ViewOp => .ViewOp
  | .Allocate => .Allocate
  | .Sync => .Sync
  | .InitMagicZero => .InitMagicZero
  | .UpdateMagicZero => .UpdateMagicZero
  | .ForLoop => .ForLoop
  | .IfThenElse => .IfThenElse
  | .GridReduction => .GridReduction
  | .GridBroadcast => .GridBroadcast
  | .GridWelford => .GridWelford

/-- The coarse Value tag that a node of a given Value variant carries: `Scalar` for
the three scalar variants. -/
def ValClass.tag : ValClass → ValType
  | .Bool => .Scalar
  | .Double => .Scalar
  | .Int => .Scalar
  | .NamedScalar => .NamedScalar
  | .IterDomain => .IterDomain
  | .TensorDomain => .TensorDomain
  | .TensorView => .TensorView
  | .Predicate => .Predicate
  | .TensorIndex => .TensorIndex

/-- The data kind that a node of a scalar variant carries; the other variants fix
none. -/
def ValClass.kind : ValClass → Option DataType
  | .Bool => some .Bool
  | .Double => some .Double
  | .Int => some .Int
  | _ => none

/-- The Value `v` carries the tag of variant `c`: the coarse tag of `c` and, for a
scalar variant, its data kind. -/
def Val.carries (v : Val) (c : ValClass) : Prop :=
  v.vtype = c.tag ∧ ∀ d, c.kind = some d → v.dtype = d

/-- The coarse Value tag is one of the seven known cases. -/
def ValType.isKnown (t : ValType) : Prop :=
  t = .Scalar ∨ t = .NamedScalar ∨ t = .IterDomain ∨ t = .TensorDomain ∨
    t = .TensorView ∨ t = .Predicate ∨ t = .TensorIndex

/-- The data kind is one of Bool, Double, Int. -/
def DataType.isScalarKind (d : DataType) : Prop :=
  d = .Bool ∨ d = .Double ∨ d = .Int

/-- The Operation tag is one of the twenty-one known cases. -/
def ExprType.isKnown (t : ExprType) : Prop :=
  ∃ c : ExprClass, t = c.tag

/-- The tags of the Value match no known variant: the coarse tag is none of the seven
known cases, or it is `Scalar` with a data kind other than Bool, Double, Int. -/
def Val.unknownTag (v : Val) : Prop :=
  ¬ v.vtype.isKnown ∨ (v.vtype = .Scalar ∧ ¬ v.dtype.isScalarKind)

/-! ## The transforming mutator -/

/-- The per-variant `mutate` overloads of a mutator whose state is `σ`: what
`Val::mutatorDispatch` and `Expr::mutatorDispatch` require of their template parameter
`T`. Each returns a `Statement*`. -/
structure VariantMutator (σ : Type) where
  mutateValAs : ValClass → Val → σ → Outcome σ Statement
  mutateExprAs : ExprClass → Expr → σ → Outcome σ Statement

/-- A mutator with, in addition, the umbrella overloads `mutate(Val*)` and
`mutate(Expr*)`: what `Statement::mutatorDispatch` requires of `T`. -/
structure Mutator (σ : Type) extends VariantMutator σ where
  mutateVal : Val → σ → Outcome σ Statement
  mutateExpr : Expr → σ → Outcome σ Statement

/-- The routine `Val::mutatorDispatch(T mutator, Val* val)`. -/
def Val.mutatorDispatch {σ : Type} (mutator : VariantMutator σ) (val : Val) (s : σ) :
    Outcome σ Statement :=
  match val.vtype with
  | .Scalar =>
    match val.dtype with
    | .Bool => mutator.mutateValAs .Bool val s
    | .Double => mutator.mutateValAs .Double val s
    | .Int => mutator.mutateValAs .Int val s
    | _ => .threw unknownValtype s
  | .NamedScalar => mutator.mutateValAs .NamedScalar val s
  | .IterDomain => mutator.mutateValAs .IterDomain val s
  | .TensorDomain => mutator.mutateValAs .TensorDomain val s
  | .TensorView => mutator.mutateValAs .TensorView val s
  | .Predicate => mutator.mutateValAs .Predicate val s
  | .TensorIndex => mutator.mutateValAs .TensorIndex val s
  | _ => .threw unknownValtype s

/-- The routine `Expr::mutatorDispatch(T mutator, Expr* expr)`. -/
def Expr.mutatorDispatch {σ : Type} (mutator : VariantMutator σ) (expr : Expr)
    (s : σ) : Outcome σ Statement :=
  match expr.etype with
  | .UnaryOp => mutator.mutateExprAs .UnaryOp expr s
  | .BinaryOp => mutator.mutateExprAs .BinaryOp expr s
  | .TernaryOp => mutator.mutateExprAs .TernaryOp expr s
  | .ReductionOp => mutator.mutateExprAs .ReductionOp expr s
  | .WelfordOp => mutator.mutateExprAs .WelfordOp expr s
  | .BroadcastOp => mutator.mutateExprAs .BroadcastOp expr s
  | .Split => mutator.mutateExprAs .Split expr s
  | .Merge => mutator.mutateExprAs .Merge expr s
  | .TransposeOp => mutator.mutateExprAs .TransposeOp expr s
  | .ShiftOp => mutator.mutateExprAs .ShiftOp expr s
  | .GatherOp => mutator.mutateExprAs .GatherOp expr s
  | .ViewOp => mutator.mutateExprAs .ViewOp expr s
  | .Allocate => mutator.mutateExprAs .Allocate expr s
  | .Sync => mutator.mutateExprAs .Sync expr s
  | .InitMagicZero => mutator.mutateExprAs .InitMagicZero expr s
  | .UpdateMagicZero => mutator.mutateExprAs .UpdateMagicZero expr s
  | .ForLoop => mutator.mutateExprAs .ForLoop expr s
  | .IfThenElse => mutator.mutateExprAs .IfThenElse expr s
  | .GridReduction => mutator.mutateExprAs .GridReduction expr s
  | .GridBroadcast => mutator.mutateExprAs .GridBroadcast expr s
  | .GridWelford => mutator.mutateExprAs .GridWelford expr s
  | _ => .threw unknownExprtype s

/-- The routine `Statement::mutatorDispatch(T mutator, Statement* stmt)`. -/
def Statement.mutatorDispatch {σ : Type} (mutator : Mutator σ) (stmt : Statement)
    (s : σ) : Outcome σ Statement :=
  match stmt with
  | .val v => mutator.mutateVal v s
  | .expr e => mutator.mutateExpr e s
  | .bare _ => .threw unknownStmttype s

/-- The member `mutations` of `OptOutMutator`, an `unordered_map<Val*, Val*>`, as the
list of its entries. -/
abbrev Mutations := List (Val × Val)

/-- The lookup `mutations.find(v)`: `none` is `mutations.end()`, `some r` an entry whose
mapped value is `r`. -/
def Mutations.find : Mutations → Val → Option Val
  | [], _ => none
  | (k, r) :: rest, v => if k = v then some r else Mutations.find rest v

/-- The assignment `mutations[val] = mutation`: overwrites the mapped value of an
existing key, inserts the entry otherwise. -/
def Mutations.assign : Mutations → Val → Val → Mutations
  | [], val, mutation => [(val, mutation)]
  | (k, r) :: rest, val, mutation =>
    if k = val then (k, mutation) :: rest
    else (k, r) :: Mutations.assign rest val mutation

/-- The Value `v` is a key of the record. -/
def Mutations.isKey (m : Mutations) (v : Val) : Prop :=
  v ∈ m.map Prod.fst

/-- The data members of an `OptOutMutator` object: the mutation record, and whatever a
derived class adds (`ext`). -/
structure MutatorState (ε : Type) where
  mutations : Mutations
  ext : ε
  deriving DecidableEq, Repr

/-- Message of the assertion of `OptOutMutator::registerMutation` (its two string
arguments, concatenated). -/
def duplicateMutation : String :=
  " The same value is incorrectly being mutated twice." ++
    " One mutation per mutation pass is allowed."

/-- The method `OptOutMutator::registerMutation(Val* val, Val* mutation)`. -/
def OptOutMutator.registerMutation {ε : Type} (val mutation : Val)
    (s : MutatorState ε) : Outcome (MutatorState ε) Unit :=
  match s.mutations.find val with
  | none => .returned () ⟨s.mutations.assign val mutation, s.ext⟩
  | some _ => .threw duplicateMutation s

/-- The method `OptOutMutator::mutate(Expr* e)`, on an object whose per-variant
overloads are `self`. -/
def OptOutMutator.mutateExpr {ε : Type} (self : VariantMutator (MutatorState ε))
    (e : Expr) (s : MutatorState ε) : Outcome (MutatorState ε) Statement :=
  Expr.mutatorDispatch self e s

/-- The method `OptOutMutator::mutate(Val* v)`: an entry found for `v` is returned
(`mutations[v]` on a present key reads the mapped value), otherwise the Value is
dispatched. -/
def OptOutMutator.mutateVal {ε : Type} (self : VariantMutator (MutatorState ε))
    (v : Val) (s : MutatorState ε) : Outcome (MutatorState ε) Statement :=
  match s.mutations.find v with
  | some r => .returned (.val r) s
  | none => Val.mutatorDispatch self v s

/-- An `OptOutMutator` object as handed to `Statement::mutatorDispatch` (the `this` of
`mutate(Statement*)`). -/
def OptOutMutator.this {ε : Type} (self : VariantMutator (MutatorState ε)) :
    Mutator (MutatorState ε) where
  toVariantMutator := self
  mutateVal := OptOutMutator.mutateVal self
  mutateExpr := OptOutMutator.mutateExpr self

/-- The method `OptOutMutator::mutate(Statement* s)`. -/
def OptOutMutator.mutate {ε : Type} (self : VariantMutator (MutatorState ε))
    (stmt : Statement) (s : MutatorState ε) : Outcome (MutatorState ε) Statement :=
  Statement.mutatorDispatch (OptOutMutator.this self) stmt s

/-! ## Vocabulary of the claims about the mutator -/

/-- A mutator that overrides every variant method to append its own invocation to a
log kept in `ext` and to return its argument; it never touches the record. -/
def recordingMutator : VariantMutator (MutatorState (List Invocation)) where
  mutateValAs c v s := .returned (.val v) ⟨s.mutations, s.ext ++ [.val c v]⟩
  mutateExprAs c e s := .returned (.expr e) ⟨s.mutations, s.ext ++ [.expr c e]⟩

/-- A run of successful `registerMutation` calls, one per pair; `none` as soon as one
of them fails. -/
def registerAll {ε : Type} : List (Val × Val) → MutatorState ε → Option (MutatorState ε)
  | [], s => some s
  | (original, replacement) :: rest, s =>
    match OptOutMutator.registerMutation original replacement s with
    | .returned _ t => registerAll rest t
    | .threw _ _ => none

/-- The variant methods touch the mutation record only through `registerMutation`:
whatever a variant method does, on return or on failure, the record it leaves is the
one that some run of successful `registerMutation` calls produces from the record it
found. -/
def RegistersOnly {ε : Type} (self : VariantMutator (MutatorState ε)) : Prop :=
  (∀ c v s, ∃ regs t, registerAll regs s = some t ∧
      (self.mutateValAs c v s).state.mutations = t.mutations) ∧
  (∀ c e s, ∃ regs t, registerAll regs s = some t ∧
      (self.mutateExprAs c e s).state.mutations = t.mutations)

/-- A call made on the mutator from outside during a pass. -/
inductive MutatorCall where
  | registerMutation (original replacement : Val)
  | mutateVal (v : Val)
  | mutateExpr (e : Expr)
  | mutate (stmt : Statement)
  deriving DecidableEq, Repr

/-- The state the mutator is in after one call, whether the call returned or failed. -/
def MutatorCall.exec {ε : Type} (self : VariantMutator (MutatorState ε)) :
    MutatorCall → MutatorState ε → MutatorState ε
  | .registerMutation a b, s => (OptOutMutator.registerMutation a b s).state
  | .mutateVal v, s => (OptOutMutator.mutateVal self v s).state
  | .mutateExpr e, s => (OptOutMutator.mutateExpr self e s).state
  | .mutate stmt, s => (OptOutMutator.mutate self stmt s).state

/-- The state the mutator is in after a sequence of calls. -/
def OptOutMutator.pass {ε : Type} (self : VariantMutator (MutatorState ε)) :
    List MutatorCall → MutatorState ε → MutatorState ε
  | [], s => s
  | call :: rest, s => OptOutMutator.pass self rest (call.exec self s)

/-- A mutator whose variant method for integer scalars registers, for a Value that has
no entry yet, the Value of the next name as its replacement and returns it; the other
variant methods return their argument. -/
def renamesInts : VariantMutator (MutatorState Unit) where
  mutateValAs c v s :=
    match c with
    | .Int =>
      match OptOutMutator.registerMutation v (Val.mk (v.name + 1) v.vtype v.dtype) s with
      | .returned _ t => .returned (.val (Val.mk (v.name + 1) v.vtype v.dtype)) t
      | .threw msg t => .threw msg t
    | _ => .returned (.val v) s
  mutateExprAs _ e s := .returned (.expr e) s

/-! ## Default methods of the visitors -/

/-- Modelled from the spec: the macro `TORCH_INTERNAL_ASSERT(cond, msg…)` of `c10` is
missing; a fatal failure carrying the message when the condition is false, nothing when
it holds. -/
def torchInternalAssert {σ : Type} (cond : Bool) (what : String) (s : σ) :
    Outcome σ Unit :=
  if cond then .returned () s else .threw what s

/-- The hook `OptOutDispatch::unhandled(Statement*)`: an empty body. -/
def OptOutDispatch.unhandled {σ : Type} (_stmt : Statement) (s : σ) : Outcome σ Unit :=
  .returned () s

/-- The Value overloads `OptOutDispatch::handle(Bool*)`, …,
`OptOutDispatch::handle(kir::TensorIndex*)`, on an object whose (virtual) hook is
`unhandled`: each passes its node to the hook. -/
def OptOutDispatch.handleValAs {σ : Type} (unhandled : Statement → σ → Outcome σ Unit) :
    ValClass → Val → σ → Outcome σ Unit
  | .Bool, stmt, s => unhandled (.val stmt) s
  | .Double, stmt, s => unhandled (.val stmt) s
  | .Int, stmt, s => unhandled (.val stmt) s
  | .NamedScalar, stmt, s => unhandled (.val stmt) s
  | .IterDomain, stmt, s => unhandled (.val stmt) s
  | .TensorDomain, stmt, s => unhandled (.val stmt) s
  | .TensorView, stmt, s => unhandled (.val stmt) s
  | .Predicate, stmt, s => unhandled (.val stmt) s
  | .TensorIndex, stmt, s => unhandled (.val stmt) s

/-- The Operation overloads `OptOutDispatch::handle(UnaryOp*)`, …,
`OptOutDispatch::handle(kir::GridWelford*)`, on an object whose hook is `unhandled`. -/
def OptOutDispatch.handleExprAs {σ : Type}
    (unhandled : Statement → σ → Outcome σ Unit) :
    ExprClass → Expr → σ → Outcome σ Unit
  | .UnaryOp, stmt, s => unhandled (.expr stmt) s
  | .BinaryOp, stmt, s => unhandled (.expr stmt) s
  | .TernaryOp, stmt, s => unhandled (.expr stmt) s
  | .ReductionOp, stmt, s => unhandled (.expr stmt) s
  | .WelfordOp, stmt, s => unhandled (.expr stmt) s
  | .BroadcastOp, stmt, s => unhandled (.expr stmt) s
  | .Split, stmt, s => unhandled (.expr stmt) s
  | .Merge, stmt, s => unhandled (.expr stmt) s
  | .TransposeOp, stmt, s => unhandled (.expr stmt) s
  | .ShiftOp, stmt, s => unhandled (.expr stmt) s
  | .GatherOp, stmt, s => unhandled (.expr stmt) s
  | .ViewOp, stmt, s => unhandled (.expr stmt) s
  | .Allocate, stmt, s => unhandled (.expr stmt) s
  | .Sync, stmt, s => unhandled (.expr stmt) s
  | .InitMagicZero, stmt, s => unhandled (.expr stmt) s
  | .UpdateMagicZero, stmt, s => unhandled (.expr stmt) s
  | .ForLoop, stmt, s => unhandled (.expr stmt) s
  | .IfThenElse, stmt, s => unhandled (.expr stmt) s
  | .GridReduction, stmt, s => unhandled (.expr stmt) s
  | .GridBroadcast, stmt, s => unhandled (.expr stmt) s
  | .GridWelford, stmt, s => unhandled (.expr stmt) s

/-- The variant methods of an `OptOutDispatch` that overrides at most its hook. -/
def OptOutDispatch.base {σ : Type} (unhandled : Statement → σ → Outcome σ Unit) :
    VariantHandler σ where
  handleValAs := OptOutDispatch.handleValAs unhandled
  handleExprAs := OptOutDispatch.handleExprAs unhandled

/-- The Value overloads `OptOutConstDispatch::handle(const Bool*)`, …, on an object
whose (virtual) hook is `unhandled`. -/
def OptOutConstDispatch.handleValAs {σ : Type}
    (unhandled : Statement → σ → Outcome σ Unit) :
    ValClass → Val → σ → Outcome σ Unit
  | .Bool, stmt, s => unhandled (.val stmt) s
  | .Double, stmt, s => unhandled (.val stmt) s
  | .Int, stmt, s => unhandled (.val stmt) s
  | .NamedScalar, stmt, s => unhandled (.val stmt) s
  | .IterDomain, stmt, s => unhandled (.val stmt) s
  | .TensorDomain, stmt, s => unhandled (.val stmt) s
  | .TensorView, stmt, s => unhandled (.val stmt) s
  | .Predicate, stmt, s => unhandled (.val stmt) s
  | .TensorIndex, stmt, s => unhandled (.val stmt) s

/-- The Operation overloads `OptOutConstDispatch::handle(const UnaryOp*)`, …, on an
object whose hook is `unhandled`. -/
def OptOutConstDispatch.handleExprAs {σ : Type}
    (unhandled : Statement → σ → Outcome σ Unit) :
    ExprClass → Expr → σ → Outcome σ Unit
  | .UnaryOp, stmt, s => unhandled (.expr stmt) s
  | .BinaryOp, stmt, s => unhandled (.expr stmt) s
  | .TernaryOp, stmt, s => unhandled (.expr stmt) s
  | .ReductionOp, stmt, s => unhandled (.expr stmt) s
  | .WelfordOp, stmt, s => unhandled (.expr stmt) s
  | .BroadcastOp, stmt, s => unhandled (.expr stmt) s
  | .Split, stmt, s => unhandled (.expr stmt) s
  | .Merge, stmt, s => unhandled (.expr stmt) s
  | .TransposeOp, stmt, s => unhandled (.expr stmt) s
  | .ShiftOp, stmt, s => unhandled (.expr stmt) s
  | .GatherOp, stmt, s => unhandled (.expr stmt) s
  | .ViewOp, stmt, s => unhandled (.expr stmt) s
  | .Allocate, stmt, s => unhandled (.expr stmt) s
  | .Sync, stmt, s => unhandled (.expr stmt) s
  | .InitMagicZero, stmt, s => unhandled (.expr stmt) s
  | .UpdateMagicZero, stmt, s => unhandled (.expr stmt) s
  | .ForLoop, stmt, s => unhandled (.expr stmt) s
  | .IfThenElse, stmt, s => unhandled (.expr stmt) s
  | .GridReduction, stmt, s => unhandled (.expr stmt) s
  | .GridBroadcast, stmt, s => unhandled (.expr stmt) s
  | .GridWelford, stmt, s => unhandled (.expr stmt) s

/-- The variant methods of an `OptOutConstDispatch` that overrides at most its hook. -/
def OptOutConstDispatch.base {σ : Type} (unhandled : Statement → σ → Outcome σ Unit) :
    VariantHandler σ where
  handleValAs := OptOutConstDispatch.handleValAs unhandled
  handleExprAs := OptOutConstDispatch.handleExprAs unhandled

/-- The static classes for which `dispatch.cpp` defines an `OptOutDispatch::handle`
Value overload, in source order. -/
def OptOutDispatch.valOverloads : List ValClass :=
  [.Bool, .Double, .Int, .NamedScalar, .IterDomain,
   .TensorDomain, .TensorView, .Predicate, .TensorIndex]

/-- The static classes for which `dispatch.cpp` defines an `OptOutDispatch::handle`
Operation overload, in source order. -/
def OptOutDispatch.exprOverloads : List ExprClass :=
  [.UnaryOp, .BinaryOp, .TernaryOp, .ReductionOp, .WelfordOp,
   .BroadcastOp, .Split, .Merge, .TransposeOp, .ShiftOp,
   .GatherOp, .ViewOp, .Allocate, .Sync, .InitMagicZero,
   .UpdateMagicZero, .ForLoop, .IfThenElse, .GridReduction, .GridBroadcast,
   .GridWelford]

/-- The `case` labels of the `switch` of `Expr::dispatch`, in source order. -/
def Expr.caseLabels : List ExprType :=
  [.UnaryOp, .BinaryOp, .TernaryOp, .ReductionOp, .WelfordOp,
   .BroadcastOp, .Split, .Merge, .TransposeOp, .ShiftOp,
   .GatherOp, .ViewOp, .Allocate, .Sync, .InitMagicZero,
   .UpdateMagicZero, .ForLoop, .IfThenElse, .GridReduction, .GridBroadcast,
   .GridWelford]

/-- The text that the arguments `"Handle not overriden for ", tag, "."` of the
assertions in the opt-in hooks make, `tag` being the printed tag. -/
def handleNotOverriden (tag : String) : String :=
  "Handle not overriden for " ++ tag ++ "."

/-- The hook `OptInConstDispatch::unhandled(const Statement* stmt)`. The stream
output of tags (`type.cpp`) is missing and taken as the parameters `showExprType` and
`showValType`. The condition of the last assertion is its only argument, the string
literal, which as a pointer is non-null. -/
def OptInConstDispatch.unhandled {σ : Type} (showExprType : ExprType → String)
    (showValType : ValType → String) (stmt : Statement) (s : σ) : Outcome σ Unit :=
  match stmt with
  | .expr e => torchInternalAssert false (handleNotOverriden (showExprType e.etype)) s
  | .val v => torchInternalAssert false (handleNotOverriden (showValType v.vtype)) s
  | .bare _ => torchInternalAssert true "" s

/-- The hook `OptInDispatch::unhandled(Statement* stmt)`, with the same parameters. -/
def OptInDispatch.unhandled {σ : Type} (showExprType : ExprType → String)
    (showValType : ValType → String) (stmt : Statement) (s : σ) : Outcome σ Unit :=
  match stmt with
  | .expr e => torchInternalAssert false (handleNotOverriden (showExprType e.etype)) s
  | .val v => torchInternalAssert false (handleNotOverriden (showValType v.vtype)) s
  | .bare _ => torchInternalAssert true "" s

/-- Modelled from the spec: the variant `mutate` methods of `OptOutMutator` are
declared in `dispatch.h` and defined outside `dispatch.cpp`, both missing; by §4.4
each, when not overridden, returns its input node unchanged. -/
def OptOutMutator.base (ε : Type) : VariantMutator (MutatorState ε) where
  mutateValAs _ v s := .returned (.val v) s
  mutateExprAs _ e s := .returned (.expr e) s

/-! ## Vocabulary of the claims about the visitors -/

/-- The node has a known variant tag: a Value whose tags match a Value variant, or an
Operation whose tag is one of the twenty-one known cases. -/
def Statement.hasKnownTag : Statement → Prop
  | .val v => ¬ v.unknownTag
  | .expr e => e.etype.isKnown
  | .bare _ => False

/-- A hook that counts its calls; the count is the whole state of the visitor. -/
def countingHook (_stmt : Statement) (n : Nat) : Outcome Nat Unit :=
  .returned () (n + 1)

/-- A hook that appends the node it is called with to a log. -/
def loggingHook (stmt : Statement) (log : List Statement) : Outcome (List Statement) Unit :=
  .returned () (log ++ [stmt])

/-- The tag that the opt-in hooks print for a node: the Operation tag of an Operation,
the coarse Value tag of a Value. -/
def Statement.printedTag (showExprType : ExprType → String)
    (showValType : ValType → String) : Statement → Option String
  | .expr e => some (showExprType e.etype)
  | .val v => some (showValType v.vtype)
  | .bare _ => none

/-- A printer of Operation tags, used to exercise the opt-in hooks: the name of the tag
as the `case` labels spell it. -/
def ExprType.spell : ExprType → String
  | .UnaryOp => "UnaryOp"
  | .BinaryOp => "BinaryOp"
  | .TernaryOp => "TernaryOp"
  | .ReductionOp => "ReductionOp"
  | .WelfordOp => "WelfordOp"
  | .BroadcastOp => "BroadcastOp"
  | .Split => "Split"
  | .Merge => "Merge"
  | .TransposeOp => "TransposeOp"
  | .ShiftOp => "ShiftOp"
  | .GatherOp => "GatherOp"
  | .ViewOp => "ViewOp"
  | .Allocate => "Allocate"
  | .Sync => "Sync"
  | .InitMagicZero => "InitMagicZero"
  | .UpdateMagicZero => "UpdateMagicZero"
  | .ForLoop => "ForLoop"
  | .IfThenElse => "IfThenElse"
  | .GridReduction => "GridReduction"
  | .GridBroadcast => "GridBroadcast"
  | .GridWelford => "GridWelford"
  | .other _ => "?"

/-- A printer of Value tags, used to exercise the opt-in hooks: the name of the tag as
the `case` labels spell it. -/
def ValType.spell : ValType → String
  | .Scalar => "Scalar"
  | .NamedScalar => "NamedScalar"
  | .IterDomain => "IterDomain"
  | .TensorDomain => "TensorDomain"
  | .TensorView => "TensorView"
  | .Predicate => "Predicate"
  | .TensorIndex => "TensorIndex"
  | .other _ => "?"

/-! ## The end-to-end scenario -/

/-- Sequencing of two calls on the same object: the second runs in the state the
first returns in, and does not run when the first throws. -/
def Outcome.andThen {σ : Type} (first : Outcome σ Unit) (next : σ → Outcome σ Unit) :
    Outcome σ Unit :=
  match first with
  | .returned _ s => next s
  | .threw what s => .threw what s

/-- Modelled from the spec: the operation tree of the end-to-end scenario of §8 (the
IR graph is owned by collaborators that are missing): a Value, or an Operation with the
trees of its inputs. -/
inductive IrTree where
  | value (v : Val)
  | operation (e : Expr) (inputs : List IrTree)

mutual
/-- Modelled from the spec: the caller-supplied recursive walk of §8, which is not
part of the sources: `handle(Statement*)` on the node, then the walk of each input. -/
def walk {σ : Type} (visitor : VariantHandler σ) : IrTree → σ → Outcome σ Unit
  | .value v, s => OptOutDispatch.handle visitor (.val v) s
  | .operation e inputs, s =>
    (OptOutDispatch.handle visitor (.expr e) s).andThen (walkAll visitor inputs)
/-- The walk of each tree of a list, in order. -/
def walkAll {σ : Type} (visitor : VariantHandler σ) : List IrTree → σ → Outcome σ Unit
  | [], s => .returned () s
  | t :: ts, s => (walk visitor t s).andThen (walkAll visitor ts)
end

/-- A visitor built on `OptOutDispatch` that overrides only `handle(BinaryOp*)` and
`handle(Int*)`, each to append its own invocation to a log; every other variant method
is the one of `OptOutDispatch`, with the hook of `OptOutDispatch`. -/
def binaryIntVisitor : VariantHandler (List Invocation) where
  handleValAs c v log :=
    match c with
    | .Int => .returned () (log ++ [.val .Int v])
    | _ => OptOutDispatch.handleValAs OptOutDispatch.unhandled c v log
  handleExprAs c e log :=
    match c with
    | .BinaryOp => .returned () (log ++ [.expr .BinaryOp e])
    | _ => OptOutDispatch.handleExprAs OptOutDispatch.unhandled c e log

/-- The tree `add(x, mul(y, z))`. -/
def addMulTree (add mul : Expr) (x y z : Val) : IrTree :=
  .operation add [.value x, .operation mul [.value y, .value z]]

/-- The invocations that the walk of `add(x, mul(y, z))` is to make, in order. -/
def addMulVisits (add mul : Expr) (x y z : Val) : List Invocation :=
  [.expr .BinaryOp add, .val .Int x, .expr .BinaryOp mul, .val .Int y, .val .Int z]

/-- The invocation is one of `handle(BinaryOp*)`. -/
def Invocation.isBinaryOp : Invocation → Bool
  | .expr .BinaryOp _ => true
  | _ => false

/-- The invocation is one of `handle(Int*)`. -/
def Invocation.isInt : Invocation → Bool
  | .val .Int _ => true
  | _ => false

/-! ## Theorems: the dispatch routines -/

/-- `Val::dispatch` raises its own failure, for every handler, exactly on the unknown
tags. -/
theorem val_dispatch_threw_iff (v : Val) :
    (∀ (σ : Type) (h : VariantHandler σ) (s : σ),
        Val.dispatch h v s = .threw unknownValtype s) ↔ v.unknownTag := by
  refine ⟨fun h => ?_, fun h σ hd s => ?_⟩
  · have h0 := h (List Invocation) recorder []
    rcases v with ⟨n, vt, dt⟩
    cases vt <;> first
      | (left; simp [ValType.isKnown]; done)
      | (cases dt <;> first
          | (right; simp [DataType.isScalarKind]; done)
          | (simp [Val.dispatch, recorder] at h0))
  · rcases v with ⟨n, vt, dt⟩
    cases vt <;> cases dt <;>
      simp [Val.unknownTag, ValType.isKnown, DataType.isScalarKind] at h <;>
      simp [Val.dispatch]

/-- Every known Operation tag is the tag of a variant. -/
theorem ExprType.isKnown_of_ne_other (t : ExprType) (h : ∀ n, t ≠ .other n) :
    t.isKnown := by
  cases t
  case other n => exact absurd rfl (h n)
  case UnaryOp => exact ⟨.UnaryOp, rfl⟩
  case BinaryOp => exact ⟨.BinaryOp, rfl⟩
  case TernaryOp => exact ⟨.TernaryOp, rfl⟩
  case ReductionOp => exact ⟨.ReductionOp, rfl⟩
  case WelfordOp => exact ⟨.WelfordOp, rfl⟩
  case BroadcastOp => exact ⟨.BroadcastOp, rfl⟩
  case Split => exact ⟨.Split, rfl⟩
  case Merge => exact ⟨.Merge, rfl⟩
  case TransposeOp => exact ⟨.TransposeOp, rfl⟩
  case ShiftOp => exact ⟨.ShiftOp, rfl⟩
  case GatherOp => exact ⟨.GatherOp, rfl⟩
  case ViewOp => exact ⟨.ViewOp, rfl⟩
  case Allocate => exact ⟨.Allocate, rfl⟩
  case Sync => exact ⟨.Sync, rfl⟩
  case InitMagicZero => exact ⟨.InitMagicZero, rfl⟩
  case UpdateMagicZero => exact ⟨.UpdateMagicZero, rfl⟩
  case ForLoop => exact ⟨.ForLoop, rfl⟩
  case IfThenElse => exact ⟨.IfThenElse, rfl⟩
  case GridReduction => exact ⟨.GridReduction, rfl⟩
  case GridBroadcast => exact ⟨.GridBroadcast, rfl⟩
  case GridWelford => exact ⟨.GridWelford, rfl⟩

/-- `Expr::dispatch` raises its own failure, for every handler, exactly on the unknown
tags. -/
theorem expr_dispatch_threw_iff (e : Expr) :
    (∀ (σ : Type) (h : VariantHandler σ) (s : σ),
        Expr.dispatch h e s = .threw unknownExprtype s) ↔ ¬ e.etype.isKnown := by
  refine ⟨fun h => ?_, fun h σ hd s => ?_⟩
  · have h0 := h (List Invocation) recorder []
    rintro ⟨c, hc⟩
    cases c <;> simp [ExprClass.tag] at hc <;>
      simp [Expr.dispatch, hc, recorder] at h0
  · rcases e with ⟨n, et⟩
    by_cases hk : ∀ n, et ≠ .other n
    · exact absurd (ExprType.isKnown_of_ne_other et hk) h
    · push_neg at hk
      obtain ⟨m, rfl⟩ := hk
      rfl

/-- `Statement::dispatch` raises its own failure, for every handler, exactly on the
nodes that are neither a Value nor an Operation. -/
theorem stmt_dispatch_threw_iff (stmt : Statement) :
    (∀ (σ : Type) (h : Handler σ) (s : σ),
        Statement.dispatch h stmt s = .threw unknownStmttype s) ↔
      (stmt.isVal = false ∧ stmt.isExpr = false) := by
  refine ⟨fun h => ?_, fun h σ hd s => ?_⟩
  · have h1 := h Unit ⟨⟨fun _ _ u => .returned () u, fun _ _ u => .returned () u⟩,
      fun _ u => .returned () u, fun _ u => .returned () u⟩ ()
    cases stmt with
    | val w => simp [Statement.dispatch] at h1
    | expr w => simp [Statement.dispatch] at h1
    | bare n => simp [Statement.isVal, Statement.isExpr]
  · cases stmt <;> simp [Statement.isVal, Statement.isExpr] at h
    simp [Statement.dispatch]

/-- The read-only and the mutable Value routine are the same function. -/
theorem val_constDispatch_eq {σ : Type} (h : VariantHandler σ) (v : Val) (s : σ) :
    Val.constDispatch h v s = Val.dispatch h v s := by
  rcases v with ⟨n, vt, dt⟩
  cases vt <;> cases dt <;> rfl

/-- The read-only and the mutable Operation routine are the same function. -/
theorem expr_constDispatch_eq {σ : Type} (h : VariantHandler σ) (e : Expr) (s : σ) :
    Expr.constDispatch h e s = Expr.dispatch h e s := by
  rcases e with ⟨n, et⟩
  cases et <;> rfl

/-- The read-only and the mutable Statement routine are the same function. -/
theorem stmt_constDispatch_eq {σ : Type} (h : Handler σ) (stmt : Statement)
    (s : σ) : Statement.constDispatch h stmt s = Statement.dispatch h stmt s := by
  cases stmt <;> rfl

/-- C1: for each of the 9 Value variants and each of the 21 Operation variants, a node
carrying that variant's tag is dispatched by `Val::dispatch` / `Expr::dispatch` to the
`handle` overload of exactly that variant, once, on that same node: for every handler
the outcome of the dispatch is the outcome of that single call, and a handler that
records every invocation records exactly this one. -/
theorem dispatch_invokes_exactly_the_variant_method
    (c : ValClass) (v : Val) (k : ExprClass) (e : Expr)
    (hv : v.carries c) (he : e.etype = k.tag) :
    ((∀ (σ : Type) (h : VariantHandler σ) (s : σ),
        Val.dispatch h v s = h.handleValAs c v s) ∧
      (∀ log : List Invocation,
        Val.dispatch recorder v log = .returned () (log ++ [.val c v]))) ∧
    ((∀ (σ : Type) (h : VariantHandler σ) (s : σ),
        Expr.dispatch h e s = h.handleExprAs k e s) ∧
      (∀ log : List Invocation,
        Expr.dispatch recorder e log = .returned () (log ++ [.expr k e]))) := by
  obtain ⟨hv1, hv2⟩ := hv
  refine ⟨?_, ?_⟩
  · cases c <;> simp [ValClass.tag, ValClass.kind] at hv1 hv2 <;>
      simp [Val.dispatch, hv1, hv2, recorder]
  · cases k <;> simp [ExprClass.tag] at he <;> simp [Expr.dispatch, he, recorder]

/-- Witness of C1: an integer scalar and a binary operation. -/
theorem dispatch_invokes_exactly_the_variant_method_witness :
    Val.dispatch recorder (Val.mk 7 .Scalar .Int) [] =
        .returned () [.val .Int (Val.mk 7 .Scalar .Int)] ∧
      Expr.dispatch recorder (Expr.mk 3 .BinaryOp) [] =
        .returned () [.expr .BinaryOp (Expr.mk 3 .BinaryOp)] :=
  have h := dispatch_invokes_exactly_the_variant_method .Int (Val.mk 7 .Scalar .Int)
    .BinaryOp (Expr.mk 3 .BinaryOp) ⟨rfl, by simp [ValClass.kind]⟩ rfl
  ⟨h.1.2 [], h.2.2 []⟩

/-- C2: a Value whose coarse tag is `Scalar` is routed by its data kind: Bool to the
Bool overload, Double to the Double overload, Int to the Int overload, each once on
that node and to no other overload, although the coarse tag is the same. -/
theorem scalar_dispatch_respects_data_kind (v : Val) (hs : v.vtype = .Scalar) :
    (v.dtype = .Bool →
      (∀ (σ : Type) (h : VariantHandler σ) (s : σ),
        Val.dispatch h v s = h.handleValAs .Bool v s) ∧
      ∀ log, Val.dispatch recorder v log = .returned () (log ++ [.val .Bool v])) ∧
    (v.dtype = .Double →
      (∀ (σ : Type) (h : VariantHandler σ) (s : σ),
        Val.dispatch h v s = h.handleValAs .Double v s) ∧
      ∀ log, Val.dispatch recorder v log = .returned () (log ++ [.val .Double v])) ∧
    (v.dtype = .Int →
      (∀ (σ : Type) (h : VariantHandler σ) (s : σ),
        Val.dispatch h v s = h.handleValAs .Int v s) ∧
      ∀ log, Val.dispatch recorder v log = .returned () (log ++ [.val .Int v])) := by
  refine ⟨?_, ?_, ?_⟩ <;> intro hd <;> simp [Val.dispatch, hs, hd, recorder]

/-- Witness of C2: three scalars that differ only in their data kind reach three
different overloads. -/
theorem scalar_dispatch_respects_data_kind_witness :
    Val.dispatch recorder (Val.mk 0 .Scalar .Bool) [] =
        .returned () [.val .Bool (Val.mk 0 .Scalar .Bool)] ∧
      Val.dispatch recorder (Val.mk 0 .Scalar .Double) [] =
        .returned () [.val .Double (Val.mk 0 .Scalar .Double)] ∧
      Val.dispatch recorder (Val.mk 0 .Scalar .Int) [] =
        .returned () [.val .Int (Val.mk 0 .Scalar .Int)] :=
  ⟨((scalar_dispatch_respects_data_kind (Val.mk 0 .Scalar .Bool) rfl).1 rfl).2 [],
   ((scalar_dispatch_respects_data_kind (Val.mk 0 .Scalar .Double) rfl).2.1 rfl).2 [],
   ((scalar_dispatch_respects_data_kind (Val.mk 0 .Scalar .Int) rfl).2.2 rfl).2 []⟩

/-- C4: `OptOutDispatch::handle(Statement*)` redispatches by category. On a node that
is a Value it has the outcome of `OptOutDispatch::handle(Val*)` on that Value, on a node
that is an Operation the outcome of `OptOutDispatch::handle(Expr*)` on that Operation,
whatever the variant methods of the visitor are; `Statement::dispatch` itself hands a
Value to the `handle(Val*)` and an Operation to the `handle(Expr*)` of any handler. A
node for which `isVal()` holds is a Value and not an Operation, one for which
`isExpr()` holds is an Operation and not a Value. -/
theorem optOut_handle_statement_redispatches {σ : Type} (self : VariantHandler σ)
    (stmt : Statement) (s : σ) :
    (∀ v : Val, stmt = .val v →
      OptOutDispatch.handle self stmt s = OptOutDispatch.handleVal self v s ∧
      OptOutDispatch.handleVal self v s = Val.dispatch self v s ∧
      ∀ h : Handler σ, Statement.dispatch h stmt s = h.handleVal v s) ∧
    (∀ e : Expr, stmt = .expr e →
      OptOutDispatch.handle self stmt s = OptOutDispatch.handleExpr self e s ∧
      OptOutDispatch.handleExpr self e s = Expr.dispatch self e s ∧
      ∀ h : Handler σ, Statement.dispatch h stmt s = h.handleExpr e s) ∧
    (stmt.isVal = true → stmt.isExpr = false ∧ ∃ v : Val, stmt = .val v) ∧
    (stmt.isExpr = true → stmt.isVal = false ∧ ∃ e : Expr, stmt = .expr e) := by
  refine ⟨?_, ?_, ?_, ?_⟩
  · rintro v rfl
    exact ⟨rfl, rfl, fun _ => rfl⟩
  · rintro e rfl
    exact ⟨rfl, rfl, fun _ => rfl⟩
  · intro h
    cases stmt with
    | val v => exact ⟨rfl, v, rfl⟩
    | expr e => simp [Statement.isVal] at h
    | bare n => simp [Statement.isVal] at h
  · intro h
    cases stmt with
    | val v => simp [Statement.isExpr] at h
    | expr e => exact ⟨rfl, e, rfl⟩
    | bare n => simp [Statement.isExpr] at h

/-- Witness of C4: a tensor view and a for-loop handed to the recording visitor
through the generic entry point. -/
theorem optOut_handle_statement_redispatches_witness :
    OptOutDispatch.handle recorder (.val (Val.mk 1 .TensorView (.other 0))) [] =
        OptOutDispatch.handleVal recorder (Val.mk 1 .TensorView (.other 0)) [] ∧
      OptOutDispatch.handle recorder (.expr (Expr.mk 2 .ForLoop)) [] =
        OptOutDispatch.handleExpr recorder (Expr.mk 2 .ForLoop) [] :=
  ⟨((optOut_handle_statement_redispatches recorder
        (.val (Val.mk 1 .TensorView (.other 0))) []).1 _ rfl).1,
   ((optOut_handle_statement_redispatches recorder
        (.expr (Expr.mk 2 .ForLoop)) []).2.1 _ rfl).1⟩

/-- C5: the read-only routines mirror the mutable ones. For every handler, node and
handler state, `Val::constDispatch`, `Expr::constDispatch` and
`Statement::constDispatch` have the outcome of `Val::dispatch`, `Expr::dispatch` and
`Statement::dispatch`: the same variant method on the same node, or the same failure
with the same message; so do the umbrella methods of `OptOutConstDispatch` and
`OptOutDispatch`. The read-only routines raise their own failure on exactly the tags
on which the mutable ones do. -/
theorem constDispatch_mirrors_dispatch (v : Val) (e : Expr) (stmt : Statement) :
    (∀ (σ : Type) (h : VariantHandler σ) (s : σ),
      Val.constDispatch h v s = Val.dispatch h v s ∧
      Expr.constDispatch h e s = Expr.dispatch h e s ∧
      OptOutConstDispatch.handleVal h v s = OptOutDispatch.handleVal h v s ∧
      OptOutConstDispatch.handleExpr h e s = OptOutDispatch.handleExpr h e s ∧
      OptOutConstDispatch.handle h stmt s = OptOutDispatch.handle h stmt s) ∧
    (∀ (σ : Type) (h : Handler σ) (s : σ),
      Statement.constDispatch h stmt s = Statement.dispatch h stmt s) ∧
    ((∀ (σ : Type) (h : VariantHandler σ) (s : σ),
        Val.constDispatch h v s = .threw unknownValtype s) ↔ v.unknownTag) ∧
    ((∀ (σ : Type) (h : VariantHandler σ) (s : σ),
        Expr.constDispatch h e s = .threw unknownExprtype s) ↔ ¬ e.etype.isKnown) ∧
    ((∀ (σ : Type) (h : Handler σ) (s : σ),
        Statement.constDispatch h stmt s = .threw unknownStmttype s) ↔
      (stmt.isVal = false ∧ stmt.isExpr = false)) := by
  refine ⟨fun σ h s => ⟨val_constDispatch_eq h v s, expr_constDispatch_eq h e s,
      val_constDispatch_eq h v s, expr_constDispatch_eq h e s, ?_⟩,
    fun σ h s => stmt_constDispatch_eq h stmt s, ?_, ?_, ?_⟩
  · cases stmt with
    | val w => exact val_constDispatch_eq h w s
    | expr w => exact expr_constDispatch_eq h w s
    | bare n => rfl
  · simp only [val_constDispatch_eq]
    exact val_dispatch_threw_iff v
  · simp only [expr_constDispatch_eq]
    exact expr_dispatch_threw_iff e
  · simp only [stmt_constDispatch_eq]
    exact stmt_dispatch_threw_iff stmt

/-! ## Theorems: the transforming mutator -/

/-- After `mutations[val] = mutation`, the lookup of `val` finds `mutation`. -/
theorem Mutations.find_assign_self (m : Mutations) (val mutation : Val) :
    Mutations.find (Mutations.assign m val mutation) val = some mutation := by
  induction m with
  | nil => simp [Mutations.assign, Mutations.find]
  | cons entry rest ih =>
    obtain ⟨k, r⟩ := entry
    by_cases hk : k = val
    · simp [Mutations.assign, Mutations.find, hk]
    · simp [Mutations.assign, Mutations.find, hk, ih]

/-- The assignment `mutations[val] = mutation` changes the lookup of no other key. -/
theorem Mutations.find_assign_other (m : Mutations) (val mutation w : Val)
    (hw : w ≠ val) :
    Mutations.find (Mutations.assign m val mutation) w = Mutations.find m w := by
  induction m with
  | nil =>
    have hvw : ¬ val = w := fun h => hw h.symm
    simp [Mutations.assign, Mutations.find, hvw]
  | cons entry rest ih =>
    obtain ⟨k, r⟩ := entry
    by_cases hk : k = val
    · have hkw : ¬ k = w := fun h => hw (h.symm.trans hk)
      have hvw : ¬ val = w := fun h => hw h.symm
      simp [Mutations.assign, Mutations.find, hk, hvw]
    · by_cases hkw : k = w
      · subst hkw
        simp [Mutations.assign, Mutations.find, hk]
      · simp [Mutations.assign, Mutations.find, hk, hkw, ih]

/-- A call of `registerMutation`, returning or failing, keeps every entry the record
has. -/
theorem OptOutMutator.registerMutation_keeps {ε : Type} (x y a b : Val)
    (s : MutatorState ε) (hab : Mutations.find s.mutations a = some b) :
    Mutations.find (OptOutMutator.registerMutation x y s).state.mutations a = some b := by
  unfold OptOutMutator.registerMutation
  cases hx : Mutations.find s.mutations x with
  | some r => simpa [Outcome.state] using hab
  | none =>
    have hne : a ≠ x := by
      rintro rfl
      rw [hx] at hab
      exact Option.noConfusion hab
    simpa [Outcome.state, Mutations.find_assign_other _ _ _ _ hne] using hab

/-- A run of successful `registerMutation` calls keeps every entry the record has. -/
theorem registerAll_keeps {ε : Type} (regs : List (Val × Val)) (a b : Val) :
    ∀ (s t : MutatorState ε), registerAll regs s = some t →
      Mutations.find s.mutations a = some b → Mutations.find t.mutations a = some b := by
  induction regs with
  | nil =>
    intro s t h hab
    simp [registerAll] at h
    subst h
    exact hab
  | cons reg rest ih =>
    intro s t h hab
    obtain ⟨x, y⟩ := reg
    have hk := OptOutMutator.registerMutation_keeps x y a b s hab
    simp only [registerAll] at h
    cases hr : OptOutMutator.registerMutation x y s with
    | returned u s1 =>
      rw [hr] at h hk
      exact ih s1 t h hk
    | threw msg s1 =>
      rw [hr] at h
      exact Option.noConfusion h

/-- On a Value whose tags are those of variant `c`, `Val::mutatorDispatch` is the call
of the `mutate` overload of `c` on that Value. -/
theorem Val.mutatorDispatch_of_carries {σ : Type} (m : VariantMutator σ)
    (c : ValClass) (v : Val) (s : σ) (hc : v.carries c) :
    Val.mutatorDispatch m v s = m.mutateValAs c v s := by
  obtain ⟨h1, h2⟩ := hc
  cases c <;> simp [ValClass.tag, ValClass.kind] at h1 h2 <;>
    simp [Val.mutatorDispatch, h1, h2]

/-- On an Operation whose tag is that of variant `c`, `Expr::mutatorDispatch` is the
call of the `mutate` overload of `c` on that Operation. -/
theorem Expr.mutatorDispatch_of_tag {σ : Type} (m : VariantMutator σ)
    (c : ExprClass) (e : Expr) (s : σ) (hc : e.etype = c.tag) :
    Expr.mutatorDispatch m e s = m.mutateExprAs c e s := by
  cases c <;> simp [ExprClass.tag] at hc <;> simp [Expr.mutatorDispatch, hc]

/-- The outcome of `Val::mutatorDispatch` is its own failure in the state it found, or
the outcome of one variant method. -/
theorem val_mutatorDispatch_cases {σ : Type} (m : VariantMutator σ) (v : Val) (s : σ) :
    Val.mutatorDispatch m v s = .threw unknownValtype s ∨
      ∃ c, Val.mutatorDispatch m v s = m.mutateValAs c v s := by
  rcases v with ⟨n, vt, dt⟩
  cases vt <;> first
    | (left; rfl)
    | (right; exact ⟨_, rfl⟩)
    | (cases dt <;> first
        | (left; rfl)
        | (right; exact ⟨_, rfl⟩))

/-- The outcome of `Expr::mutatorDispatch` is its own failure in the state it found,
or the outcome of one variant method. -/
theorem expr_mutatorDispatch_cases {σ : Type} (m : VariantMutator σ) (e : Expr)
    (s : σ) :
    Expr.mutatorDispatch m e s = .threw unknownExprtype s ∨
      ∃ c, Expr.mutatorDispatch m e s = m.mutateExprAs c e s := by
  rcases e with ⟨n, et⟩
  cases et <;> first
    | (left; rfl)
    | (right; exact ⟨_, rfl⟩)

/-- With variant methods that touch the record only through `registerMutation`, a call
of `mutate(Expr*)` keeps every entry the record has. -/
theorem OptOutMutator.mutateExpr_keeps {ε : Type}
    (self : VariantMutator (MutatorState ε)) (hself : RegistersOnly self)
    (e : Expr) (a b : Val) (s : MutatorState ε)
    (hab : Mutations.find s.mutations a = some b) :
    Mutations.find (OptOutMutator.mutateExpr self e s).state.mutations a = some b := by
  unfold OptOutMutator.mutateExpr
  rcases expr_mutatorDispatch_cases self e s with h | ⟨c, h⟩
  · rw [h]
    exact hab
  · rw [h]
    obtain ⟨regs, t, hrun, ht⟩ := hself.2 c e s
    rw [ht]
    exact registerAll_keeps regs a b s t hrun hab

/-- With variant methods that touch the record only through `registerMutation`, a call
of `mutate(Val*)` keeps every entry the record has. -/
theorem OptOutMutator.mutateVal_keeps {ε : Type}
    (self : VariantMutator (MutatorState ε)) (hself : RegistersOnly self)
    (v : Val) (a b : Val) (s : MutatorState ε)
    (hab : Mutations.find s.mutations a = some b) :
    Mutations.find (OptOutMutator.mutateVal self v s).state.mutations a = some b := by
  unfold OptOutMutator.mutateVal
  cases hv : Mutations.find s.mutations v with
  | some r => simpa [Outcome.state] using hab
  | none =>
    simp only
    rcases val_mutatorDispatch_cases self v s with h | ⟨c, h⟩
    · rw [h]
      exact hab
    · rw [h]
      obtain ⟨regs, t, hrun, ht⟩ := hself.1 c v s
      rw [ht]
      exact registerAll_keeps regs a b s t hrun hab

/-- With variant methods that touch the record only through `registerMutation`, every
call from outside keeps every entry the record has. -/
theorem MutatorCall.exec_keeps {ε : Type}
    (self : VariantMutator (MutatorState ε)) (hself : RegistersOnly self)
    (call : MutatorCall) (a b : Val) (s : MutatorState ε)
    (hab : Mutations.find s.mutations a = some b) :
    Mutations.find (call.exec self s).mutations a = some b := by
  cases call with
  | registerMutation x y => exact OptOutMutator.registerMutation_keeps x y a b s hab
  | mutateVal v => exact OptOutMutator.mutateVal_keeps self hself v a b s hab
  | mutateExpr e => exact OptOutMutator.mutateExpr_keeps self hself e a b s hab
  | mutate stmt =>
    cases stmt with
    | val v => exact OptOutMutator.mutateVal_keeps self hself v a b s hab
    | expr e => exact OptOutMutator.mutateExpr_keeps self hself e a b s hab
    | bare n => exact hab

/-- With variant methods that touch the record only through `registerMutation`, every
sequence of calls keeps every entry the record has. -/
theorem OptOutMutator.pass_keeps {ε : Type}
    (self : VariantMutator (MutatorState ε)) (hself : RegistersOnly self)
    (calls : List MutatorCall) (a b : Val) :
    ∀ s : MutatorState ε, Mutations.find s.mutations a = some b →
      Mutations.find (OptOutMutator.pass self calls s).mutations a = some b := by
  induction calls with
  | nil => exact fun s hab => hab
  | cons call rest ih =>
    intro s hab
    exact ih _ (MutatorCall.exec_keeps self hself call a b s hab)

/-- The mutator that renames integer scalars touches the record only through
`registerMutation`. -/
theorem renamesInts_registersOnly : RegistersOnly renamesInts := by
  refine ⟨fun c v s => ?_, fun _ _ s => ⟨[], s, rfl, rfl⟩⟩
  cases c
  case Int =>
    cases hr : OptOutMutator.registerMutation v (Val.mk (v.name + 1) v.vtype v.dtype) s with
    | returned u t =>
      refine ⟨[(v, Val.mk (v.name + 1) v.vtype v.dtype)], t, ?_, ?_⟩
      · simp [registerAll, hr]
      · simp [renamesInts, hr, Outcome.state]
    | threw msg t =>
      refine ⟨[], s, rfl, ?_⟩
      have hst : t = s := by
        unfold OptOutMutator.registerMutation at hr
        cases hf : Mutations.find s.mutations v with
        | none => rw [hf] at hr; exact Outcome.noConfusion hr
        | some r =>
          rw [hf] at hr
          simp only [Outcome.threw.injEq] at hr
          exact hr.2.symm
      simp [renamesInts, hr, Outcome.state, hst]
  all_goals exact ⟨[], s, rfl, rfl⟩

/-- The lookup `mutations.find(v)` differs from `mutations.end()` exactly when `v` is a
key of the record. -/
theorem Mutations.find_eq_none_iff (m : Mutations) (v : Val) :
    Mutations.find m v = none ↔ ¬ Mutations.isKey m v := by
  induction m with
  | nil => simp [Mutations.find, Mutations.isKey]
  | cons entry rest ih =>
    obtain ⟨k, r⟩ := entry
    by_cases hk : k = v
    · simp [Mutations.find, Mutations.isKey, hk]
    · have hvk : ¬ v = k := fun h => hk h.symm
      simp only [Mutations.isKey] at ih
      simp [Mutations.find, Mutations.isKey, hk, hvk, ih]

/-- C6: after `registerMutation(a, b)` has succeeded, `mutate(a)` on the Value entry
point returns `b` and leaves the mutator (its record included) exactly as it was,
whatever the variant methods are, so none of them runs; a second call returns the same
`b`; the same holds in every state whose record maps `a` to `b`, and so after every
further sequence of calls when the variant methods touch the record only through
`registerMutation`. -/
theorem mutate_after_registerMutation {ε : Type}
    (self : VariantMutator (MutatorState ε)) (a b : Val) (s0 s1 : MutatorState ε)
    (hreg : OptOutMutator.registerMutation a b s0 = .returned () s1) :
    OptOutMutator.mutateVal self a s1 = .returned (.val b) s1 ∧
    OptOutMutator.mutateVal self a (OptOutMutator.mutateVal self a s1).state =
      .returned (.val b) s1 ∧
    (∀ s : MutatorState ε, Mutations.find s.mutations a = some b →
      OptOutMutator.mutateVal self a s = .returned (.val b) s) ∧
    (RegistersOnly self → ∀ calls : List MutatorCall,
      OptOutMutator.mutateVal self a (OptOutMutator.pass self calls s1) =
        .returned (.val b) (OptOutMutator.pass self calls s1)) := by
  have hgen : ∀ s : MutatorState ε, Mutations.find s.mutations a = some b →
      OptOutMutator.mutateVal self a s = .returned (.val b) s := by
    intro s hs
    simp [OptOutMutator.mutateVal, hs]
  have h1 : Mutations.find s1.mutations a = some b := by
    unfold OptOutMutator.registerMutation at hreg
    cases hf : Mutations.find s0.mutations a with
    | some r => rw [hf] at hreg; exact Outcome.noConfusion hreg
    | none =>
      rw [hf] at hreg
      simp only [Outcome.returned.injEq, true_and] at hreg
      rw [← hreg]
      exact Mutations.find_assign_self _ _ _
  refine ⟨hgen s1 h1, ?_, hgen, fun hself calls => ?_⟩
  · rw [hgen s1 h1]
    exact hgen s1 h1
  · exact hgen _ (OptOutMutator.pass_keeps self hself calls a b s1 h1)

/-- Witness of C6: on the recording mutator, after registering the integer scalar 1 to
be replaced by the integer scalar 2, `mutate` returns the latter and logs nothing. -/
theorem mutate_after_registerMutation_witness :
    OptOutMutator.mutateVal recordingMutator (Val.mk 1 .Scalar .Int)
        ⟨[(Val.mk 1 .Scalar .Int, Val.mk 2 .Scalar .Int)], []⟩ =
      .returned (.val (Val.mk 2 .Scalar .Int))
        ⟨[(Val.mk 1 .Scalar .Int, Val.mk 2 .Scalar .Int)], []⟩ :=
  (mutate_after_registerMutation recordingMutator (Val.mk 1 .Scalar .Int)
    (Val.mk 2 .Scalar .Int) ⟨[], []⟩
    ⟨[(Val.mk 1 .Scalar .Int, Val.mk 2 .Scalar .Int)], []⟩ rfl).1

/-- C7: `registerMutation(original, replacement)` fails if and only if `original` is
already a key of the mutation record; when it fails the mutator is left exactly as it
was, so the earlier replacement stays; when it succeeds the new record maps `original`
to `replacement` and agrees with the old record on every other Value. -/
theorem registerMutation_fails_iff_registered {ε : Type} (original replacement : Val)
    (s : MutatorState ε) :
    ((∃ msg t, OptOutMutator.registerMutation original replacement s = .threw msg t) ↔
      Mutations.isKey s.mutations original) ∧
    (Mutations.isKey s.mutations original →
      OptOutMutator.registerMutation original replacement s =
        .threw duplicateMutation s) ∧
    (¬ Mutations.isKey s.mutations original →
      ∃ t, OptOutMutator.registerMutation original replacement s = .returned () t ∧
        Mutations.find t.mutations original = some replacement ∧
        (∀ w, w ≠ original →
          Mutations.find t.mutations w = Mutations.find s.mutations w) ∧
        t.ext = s.ext) := by
  have hfail : Mutations.isKey s.mutations original →
      OptOutMutator.registerMutation original replacement s =
        .threw duplicateMutation s := by
    intro hk
    cases hf : Mutations.find s.mutations original with
    | none => exact absurd hk ((Mutations.find_eq_none_iff _ _).1 hf)
    | some r => simp [OptOutMutator.registerMutation, hf]
  have hok : ¬ Mutations.isKey s.mutations original →
      OptOutMutator.registerMutation original replacement s =
        .returned () ⟨Mutations.assign s.mutations original replacement, s.ext⟩ := by
    intro hk
    have hf := (Mutations.find_eq_none_iff _ _).2 hk
    simp [OptOutMutator.registerMutation, hf]
  refine ⟨⟨fun h => ?_, fun h => ⟨_, _, hfail h⟩⟩, hfail, fun hk => ?_⟩
  · by_contra hk
    obtain ⟨msg, t, ht⟩ := h
    rw [hok hk] at ht
    exact Outcome.noConfusion ht
  · exact ⟨_, hok hk, Mutations.find_assign_self _ _ _,
      fun w hw => Mutations.find_assign_other _ _ _ w hw, rfl⟩

/-- Witness of C7: a second registration of the same original fails and keeps the
first replacement. -/
theorem registerMutation_fails_iff_registered_witness :
    OptOutMutator.registerMutation (Val.mk 1 .Scalar .Int) (Val.mk 3 .Scalar .Int)
        (MutatorState.mk [(Val.mk 1 .Scalar .Int, Val.mk 2 .Scalar .Int)] ()) =
      .threw duplicateMutation
        (MutatorState.mk [(Val.mk 1 .Scalar .Int, Val.mk 2 .Scalar .Int)] ()) :=
  (registerMutation_fails_iff_registered (Val.mk 1 .Scalar .Int)
      (Val.mk 3 .Scalar .Int)
      (MutatorState.mk [(Val.mk 1 .Scalar .Int, Val.mk 2 .Scalar .Int)] ())).2.1
      (by simp [Mutations.isKey])

/-- C8: each original Value is substituted at most once per pass. Start from an empty
record, with variant methods that touch the record only through `registerMutation`;
after any sequence of calls of `registerMutation`, `mutate(Val*)`, `mutate(Expr*)` and
`mutate(Statement*)` (returning or failing), if the record maps `a` to `b`, then it
maps `a` to `b` after every further sequence of such calls: no call removes or
overwrites an entry. -/
theorem substitution_is_permanent {ε : Type}
    (self : VariantMutator (MutatorState ε)) (hself : RegistersOnly self) (ext : ε)
    (before later : List MutatorCall) (a b : Val)
    (hab : Mutations.find (OptOutMutator.pass self before ⟨[], ext⟩).mutations a =
      some b) :
    Mutations.find
      (OptOutMutator.pass self later
        (OptOutMutator.pass self before ⟨[], ext⟩)).mutations a = some b :=
  OptOutMutator.pass_keeps self hself later a b _ hab

/-- Witness of C8: the mutator that renames integer scalars replaces scalar 1 by
scalar 2 on the first `mutate`; a conflicting registration, further `mutate` calls and
a call on a bare statement leave that entry in place. -/
theorem substitution_is_permanent_witness :
    Mutations.find
      (OptOutMutator.pass renamesInts
        [.registerMutation (Val.mk 1 .Scalar .Int) (Val.mk 9 .Scalar .Int),
         .mutateVal (Val.mk 1 .Scalar .Int),
         .mutate (.val (Val.mk 2 .Scalar .Int)),
         .mutateExpr (Expr.mk 5 .BinaryOp),
         .mutate (.bare 0)]
        (OptOutMutator.pass renamesInts [.mutateVal (Val.mk 1 .Scalar .Int)]
          ⟨[], ()⟩)).mutations
      (Val.mk 1 .Scalar .Int) = some (Val.mk 2 .Scalar .Int) :=
  substitution_is_permanent renamesInts renamesInts_registersOnly ()
    [.mutateVal (Val.mk 1 .Scalar .Int)] _ (Val.mk 1 .Scalar .Int)
    (Val.mk 2 .Scalar .Int) rfl

/-- C9: for a Value `v` that is not a key of the mutation record and whose tags are
those of the known variant `c`, `OptOutMutator::mutate(v)` is the call of the variant
`mutate` method of `c` on `v`: it returns exactly that method's result and leaves the
mutator as that method leaves it; a mutator that records every invocation records
exactly this one. -/
theorem mutate_unregistered_dispatches {ε : Type}
    (self : VariantMutator (MutatorState ε)) (c : ValClass) (v : Val)
    (s : MutatorState ε) (hnew : ¬ Mutations.isKey s.mutations v) (hc : v.carries c) :
    OptOutMutator.mutateVal self v s = self.mutateValAs c v s ∧
    (∀ (m : Mutations) (log : List Invocation), ¬ Mutations.isKey m v →
      OptOutMutator.mutateVal recordingMutator v ⟨m, log⟩ =
        .returned (.val v) ⟨m, log ++ [.val c v]⟩) := by
  have hgen : ∀ (δ : Type) (mt : VariantMutator (MutatorState δ)) (t : MutatorState δ),
      ¬ Mutations.isKey t.mutations v →
      OptOutMutator.mutateVal mt v t = mt.mutateValAs c v t := by
    intro δ mt t ht
    have hf := (Mutations.find_eq_none_iff _ _).2 ht
    simp [OptOutMutator.mutateVal, hf, Val.mutatorDispatch_of_carries mt c v t hc]
  refine ⟨hgen ε self s hnew, fun m log hm => ?_⟩
  rw [hgen _ recordingMutator ⟨m, log⟩ hm]
  rfl

/-- Witness of C9: a tensor view without entry, although another Value has one. -/
theorem mutate_unregistered_dispatches_witness :
    OptOutMutator.mutateVal recordingMutator (Val.mk 4 .TensorView .Double)
        ⟨[(Val.mk 1 .Scalar .Int, Val.mk 2 .Scalar .Int)], []⟩ =
      .returned (.val (Val.mk 4 .TensorView .Double))
        ⟨[(Val.mk 1 .Scalar .Int, Val.mk 2 .Scalar .Int)],
          [.val .TensorView (Val.mk 4 .TensorView .Double)]⟩ :=
  (mutate_unregistered_dispatches recordingMutator .TensorView
    (Val.mk 4 .TensorView .Double)
    ⟨[(Val.mk 1 .Scalar .Int, Val.mk 2 .Scalar .Int)], []⟩
    (by simp [Mutations.isKey]) ⟨rfl, by simp [ValClass.kind]⟩).1

/-- C10: `OptOutMutator::mutate(Statement*)` is `mutate(Val*)` on a node that is a
Value, so a registered Value reached through the generic entry point also returns its
recorded replacement; it is `mutate(Expr*)` on a node that is an Operation, which is
the call of the variant method of the Operation's tag in the state as found, with no
lookup in the record; it fails with "Unknown stmttype in dispatch!" on a node that is
neither. -/
theorem mutate_statement_redispatches {ε : Type}
    (self : VariantMutator (MutatorState ε)) (stmt : Statement) (s : MutatorState ε) :
    (∀ v, stmt = .val v →
      OptOutMutator.mutate self stmt s = OptOutMutator.mutateVal self v s ∧
      ∀ b, Mutations.find s.mutations v = some b →
        OptOutMutator.mutate self stmt s = .returned (.val b) s) ∧
    (∀ e, stmt = .expr e →
      OptOutMutator.mutate self stmt s = OptOutMutator.mutateExpr self e s ∧
      OptOutMutator.mutateExpr self e s = Expr.mutatorDispatch self e s ∧
      ∀ c, e.etype = c.tag →
        OptOutMutator.mutate self stmt s = self.mutateExprAs c e s) ∧
    (stmt.isVal = false → stmt.isExpr = false →
      OptOutMutator.mutate self stmt s = .threw unknownStmttype s) ∧
    unknownStmttype = "Unknown stmttype in dispatch" ++ "!" := by
  refine ⟨?_, ?_, ?_, by decide⟩
  · rintro v rfl
    refine ⟨rfl, fun b hb => ?_⟩
    show OptOutMutator.mutateVal self v s = _
    simp [OptOutMutator.mutateVal, hb]
  · rintro e rfl
    refine ⟨rfl, rfl, fun c hc => ?_⟩
    exact Expr.mutatorDispatch_of_tag self c e s hc
  · intro h1 h2
    cases stmt with
    | val v => simp [Statement.isVal] at h1
    | expr e => simp [Statement.isExpr] at h2
    | bare n => rfl

/-- Witness of C10: a registered Value, an Operation and a bare statement through the
generic entry point of the recording mutator. -/
theorem mutate_statement_redispatches_witness :
    OptOutMutator.mutate recordingMutator (.val (Val.mk 1 .Scalar .Int))
        ⟨[(Val.mk 1 .Scalar .Int, Val.mk 2 .Scalar .Int)], []⟩ =
      .returned (.val (Val.mk 2 .Scalar .Int))
        ⟨[(Val.mk 1 .Scalar .Int, Val.mk 2 .Scalar .Int)], []⟩ ∧
    OptOutMutator.mutate recordingMutator (.expr (Expr.mk 5 .Merge))
        ⟨[(Val.mk 1 .Scalar .Int, Val.mk 2 .Scalar .Int)], []⟩ =
      recordingMutator.mutateExprAs .Merge (Expr.mk 5 .Merge)
        ⟨[(Val.mk 1 .Scalar .Int, Val.mk 2 .Scalar .Int)], []⟩ ∧
    OptOutMutator.mutate recordingMutator (.bare 0)
        ⟨[(Val.mk 1 .Scalar .Int, Val.mk 2 .Scalar .Int)], []⟩ =
      .threw unknownStmttype
        ⟨[(Val.mk 1 .Scalar .Int, Val.mk 2 .Scalar .Int)], []⟩ :=
  ⟨((mutate_statement_redispatches recordingMutator (.val (Val.mk 1 .Scalar .Int))
      ⟨[(Val.mk 1 .Scalar .Int, Val.mk 2 .Scalar .Int)], []⟩).1 _ rfl).2 _ rfl,
   ((mutate_statement_redispatches recordingMutator (.expr (Expr.mk 5 .Merge))
      ⟨[(Val.mk 1 .Scalar .Int, Val.mk 2 .Scalar .Int)], []⟩).2.1 _ rfl).2.2 _ rfl,
   (mutate_statement_redispatches recordingMutator (.bare 0)
      ⟨[(Val.mk 1 .Scalar .Int, Val.mk 2 .Scalar .Int)], []⟩).2.2.1 rfl rfl⟩

/-! ## Theorems: the default methods of the opt-out visitors -/

/-- A Value whose tags are not unknown carries the tags of a Value variant. -/
theorem Val.carries_of_known (v : Val) (hv : ¬ v.unknownTag) : ∃ c, v.carries c := by
  rcases v with ⟨n, vt, dt⟩
  cases vt
  case other m =>
    exact absurd (Or.inl (by simp [ValType.isKnown])) hv
  case Scalar =>
    cases dt
    case other m =>
      exact absurd (Or.inr ⟨rfl, by simp [DataType.isScalarKind]⟩) hv
    case Bool => exact ⟨.Bool, rfl, by simp [ValClass.kind]⟩
    case Double => exact ⟨.Double, rfl, by simp [ValClass.kind]⟩
    case Int => exact ⟨.Int, rfl, by simp [ValClass.kind]⟩
  case NamedScalar => exact ⟨.NamedScalar, rfl, by simp [ValClass.kind]⟩
  case IterDomain => exact ⟨.IterDomain, rfl, by simp [ValClass.kind]⟩
  case TensorDomain => exact ⟨.TensorDomain, rfl, by simp [ValClass.kind]⟩
  case TensorView => exact ⟨.TensorView, rfl, by simp [ValClass.kind]⟩
  case Predicate => exact ⟨.Predicate, rfl, by simp [ValClass.kind]⟩
  case TensorIndex => exact ⟨.TensorIndex, rfl, by simp [ValClass.kind]⟩

/-- On a Value whose tags are those of variant `c`, `Val::dispatch` is the call of the
`handle` overload of `c` on that Value. -/
theorem Val.dispatch_of_carries {σ : Type} (h : VariantHandler σ) (c : ValClass)
    (v : Val) (s : σ) (hc : v.carries c) :
    Val.dispatch h v s = h.handleValAs c v s := by
  obtain ⟨h1, h2⟩ := hc
  cases c <;> simp [ValClass.tag, ValClass.kind] at h1 h2 <;>
    simp [Val.dispatch, h1, h2]

/-- On an Operation whose tag is that of variant `c`, `Expr::dispatch` is the call of
the `handle` overload of `c` on that Operation. -/
theorem Expr.dispatch_of_tag {σ : Type} (h : VariantHandler σ) (c : ExprClass)
    (e : Expr) (s : σ) (hc : e.etype = c.tag) :
    Expr.dispatch h e s = h.handleExprAs c e s := by
  cases c <;> simp [ExprClass.tag] at hc <;> simp [Expr.dispatch, hc]

/-- Every Value overload of `OptOutDispatch` is the call of the hook on its node. -/
theorem OptOutDispatch.handleValAs_eq {σ : Type}
    (u : Statement → σ → Outcome σ Unit) (c : ValClass) (v : Val) (s : σ) :
    OptOutDispatch.handleValAs u c v s = u (.val v) s := by
  cases c <;> rfl

/-- Every Operation overload of `OptOutDispatch` is the call of the hook on its
node. -/
theorem OptOutDispatch.handleExprAs_eq {σ : Type}
    (u : Statement → σ → Outcome σ Unit) (c : ExprClass) (e : Expr) (s : σ) :
    OptOutDispatch.handleExprAs u c e s = u (.expr e) s := by
  cases c <;> rfl

/-- Every Value overload of `OptOutConstDispatch` is the call of the hook on its
node. -/
theorem OptOutConstDispatch.handleValAs_const_eq {σ : Type}
    (u : Statement → σ → Outcome σ Unit) (c : ValClass) (v : Val) (s : σ) :
    OptOutConstDispatch.handleValAs u c v s = u (.val v) s := by
  cases c <;> rfl

/-- Every Operation overload of `OptOutConstDispatch` is the call of the hook on its
node. -/
theorem OptOutConstDispatch.handleExprAs_const_eq {σ : Type}
    (u : Statement → σ → Outcome σ Unit) (c : ExprClass) (e : Expr) (s : σ) :
    OptOutConstDispatch.handleExprAs u c e s = u (.expr e) s := by
  cases c <;> rfl

/-- Through `OptOutDispatch::handle(Statement*)`, a node with a known variant tag
reaches the hook of a visitor that overrides at most its hook, in the state as
found. -/
theorem OptOutDispatch.handle_base {σ : Type} (u : Statement → σ → Outcome σ Unit)
    (stmt : Statement) (hk : stmt.hasKnownTag) (s : σ) :
    OptOutDispatch.handle (OptOutDispatch.base u) stmt s = u stmt s := by
  cases stmt with
  | val v =>
    obtain ⟨c, hc⟩ := Val.carries_of_known v hk
    show Val.dispatch (OptOutDispatch.base u) v s = _
    rw [Val.dispatch_of_carries _ c v s hc]
    exact OptOutDispatch.handleValAs_eq u c v s
  | expr e =>
    obtain ⟨c, hc⟩ := hk
    show Expr.dispatch (OptOutDispatch.base u) e s = _
    rw [Expr.dispatch_of_tag _ c e s hc]
    exact OptOutDispatch.handleExprAs_eq u c e s
  | bare n => exact absurd hk (by simp [Statement.hasKnownTag])

/-- Through `OptOutConstDispatch::handle(const Statement*)`, a node with a known
variant tag reaches the hook of a visitor that overrides at most its hook. -/
theorem OptOutConstDispatch.handle_const_base {σ : Type}
    (u : Statement → σ → Outcome σ Unit)
    (stmt : Statement) (hk : stmt.hasKnownTag) (s : σ) :
    OptOutConstDispatch.handle (OptOutConstDispatch.base u) stmt s = u stmt s := by
  cases stmt with
  | val v =>
    obtain ⟨c, hc⟩ := Val.carries_of_known v hk
    show Val.constDispatch (OptOutConstDispatch.base u) v s = _
    rw [val_constDispatch_eq, Val.dispatch_of_carries _ c v s hc]
    exact OptOutConstDispatch.handleValAs_const_eq u c v s
  | expr e =>
    obtain ⟨c, hc⟩ := hk
    show Expr.constDispatch (OptOutConstDispatch.base u) e s = _
    rw [expr_constDispatch_eq, Expr.dispatch_of_tag _ c e s hc]
    exact OptOutConstDispatch.handleExprAs_const_eq u c e s
  | bare n => exact absurd hk (by simp [Statement.hasKnownTag])

/-- C11: an opt-out visitor that overrides nothing silently no-ops. For every node with
a known variant tag, `OptOutDispatch::handle(Statement*)`, and `handle(Val*)` or
`handle(Expr*)` on the node as a Value or an Operation, return normally and leave the
state as found, whatever the state is made of (`σ` stands for everything the call could
write to); the node is an argument that no routine returns or changes. -/
theorem optOut_base_silently_noops {σ : Type} (stmt : Statement)
    (hk : stmt.hasKnownTag) (s : σ) :
    OptOutDispatch.handle (OptOutDispatch.base OptOutDispatch.unhandled) stmt s =
      .returned () s ∧
    (∀ v : Val, stmt = .val v →
      OptOutDispatch.handleVal (OptOutDispatch.base OptOutDispatch.unhandled) v s =
        .returned () s) ∧
    (∀ e : Expr, stmt = .expr e →
      OptOutDispatch.handleExpr (OptOutDispatch.base OptOutDispatch.unhandled) e s =
        .returned () s) := by
  have h := OptOutDispatch.handle_base OptOutDispatch.unhandled stmt hk s
  refine ⟨h, ?_, ?_⟩
  · rintro v rfl
    exact h
  · rintro e rfl
    exact h

/-- Witness of C11: a grid reduction and a predicate on the visitor that overrides
nothing, whose state here is a number. -/
theorem optOut_base_silently_noops_witness :
    OptOutDispatch.handle (OptOutDispatch.base OptOutDispatch.unhandled)
        (.expr (Expr.mk 4 .GridReduction)) (5 : Nat) = .returned () 5 ∧
      OptOutDispatch.handleVal (OptOutDispatch.base OptOutDispatch.unhandled)
        (Val.mk 6 .Predicate .Bool) (5 : Nat) = .returned () 5 :=
  ⟨(optOut_base_silently_noops (.expr (Expr.mk 4 .GridReduction))
      ⟨.GridReduction, rfl⟩ (5 : Nat)).1,
   (optOut_base_silently_noops (.val (Val.mk 6 .Predicate .Bool))
      (by simp [Statement.hasKnownTag, Val.unknownTag, ValType.isKnown])
      (5 : Nat)).2.1 _ rfl⟩

/-- C12: in the opt-out visitors every default variant method delegates to the hook
`unhandled`. For an `OptOutDispatch` or `OptOutConstDispatch` that overrides only the
hook, `handle` on a node with a known variant tag is one call of the hook on that same
node in the state as found; so a counting hook counts one per dispatched node and a
logging hook logs exactly that node. -/
theorem optOut_defaults_delegate_to_unhandled {σ : Type}
    (u : Statement → σ → Outcome σ Unit) (stmt : Statement) (hk : stmt.hasKnownTag)
    (s : σ) :
    OptOutDispatch.handle (OptOutDispatch.base u) stmt s = u stmt s ∧
    OptOutConstDispatch.handle (OptOutConstDispatch.base u) stmt s = u stmt s ∧
    (∀ n : Nat,
      OptOutDispatch.handle (OptOutDispatch.base countingHook) stmt n =
        .returned () (n + 1) ∧
      OptOutConstDispatch.handle (OptOutConstDispatch.base countingHook) stmt n =
        .returned () (n + 1)) ∧
    (∀ log : List Statement,
      OptOutDispatch.handle (OptOutDispatch.base loggingHook) stmt log =
        .returned () (log ++ [stmt]) ∧
      OptOutConstDispatch.handle (OptOutConstDispatch.base loggingHook) stmt log =
        .returned () (log ++ [stmt])) :=
  ⟨OptOutDispatch.handle_base u stmt hk s,
   OptOutConstDispatch.handle_const_base u stmt hk s,
   fun n => ⟨OptOutDispatch.handle_base countingHook stmt hk n,
     OptOutConstDispatch.handle_const_base countingHook stmt hk n⟩,
   fun log => ⟨OptOutDispatch.handle_base loggingHook stmt hk log,
     OptOutConstDispatch.handle_const_base loggingHook stmt hk log⟩⟩

/-- Witness of C12: a double scalar through the mutable visitor and a split through the
read-only visitor, each counted once. -/
theorem optOut_defaults_delegate_to_unhandled_witness :
    OptOutDispatch.handle (OptOutDispatch.base countingHook)
        (.val (Val.mk 1 .Scalar .Double)) 0 = .returned () 1 ∧
      OptOutConstDispatch.handle (OptOutConstDispatch.base countingHook)
        (.expr (Expr.mk 2 .Split)) 0 = .returned () 1 :=
  ⟨((optOut_defaults_delegate_to_unhandled countingHook
      (.val (Val.mk 1 .Scalar .Double))
      (by simp [Statement.hasKnownTag, Val.unknownTag, ValType.isKnown,
        DataType.isScalarKind]) 0).2.2.1 0).1,
   ((optOut_defaults_delegate_to_unhandled countingHook (.expr (Expr.mk 2 .Split))
      ⟨.Split, rfl⟩ 0).2.2.1 0).2⟩

/-- C13, as stated, fails: `dispatch.cpp` defines 21 Operation overloads of
`OptOutDispatch::handle`, and `Expr::dispatch` has 21 `case` labels, not 20. -/
theorem optOut_operation_surface_is_not_twenty :
    ¬ (OptOutDispatch.valOverloads.length = 9 ∧
        OptOutDispatch.exprOverloads.length = 20 ∧ Expr.caseLabels.length = 20) := by
  decide

/-- C13, amended: the opt-out visitor has one variant method per variant, 9 for the
Value variants and 21 for the Operation variants (the lists name every variant once),
each defined to call the hook; the Operation dispatch table has one `case` per
Operation variant method, 21 labels, which are the tags of the 21 methods in the same
order and exactly the known tags, and the `case` of a method's tag calls that
method. -/
theorem optOut_method_surface_matches_table :
    (OptOutDispatch.valOverloads.Nodup ∧ (∀ c, c ∈ OptOutDispatch.valOverloads) ∧
      OptOutDispatch.valOverloads.length = 9) ∧
    (OptOutDispatch.exprOverloads.Nodup ∧ (∀ c, c ∈ OptOutDispatch.exprOverloads) ∧
      OptOutDispatch.exprOverloads.length = 21) ∧
    (Expr.caseLabels.Nodup ∧ Expr.caseLabels.length = 21 ∧
      Expr.caseLabels = OptOutDispatch.exprOverloads.map ExprClass.tag ∧
      ∀ t : ExprType, t ∈ Expr.caseLabels ↔ t.isKnown) ∧
    (∀ (σ : Type) (u : Statement → σ → Outcome σ Unit) (c : ExprClass) (e : Expr)
        (s : σ),
      OptOutDispatch.handleExprAs u c e s = u (.expr e) s ∧
      (e.etype = c.tag →
        (∀ h : VariantHandler σ, Expr.dispatch h e s = h.handleExprAs c e s) ∧
        Expr.dispatch (OptOutDispatch.base u) e s = u (.expr e) s)) := by
  refine ⟨⟨by decide, fun c => by cases c <;> decide, rfl⟩,
    ⟨by decide, fun c => by cases c <;> decide, rfl⟩,
    ⟨by decide, rfl, rfl, fun t => ⟨fun ht => ?_, fun ht => ?_⟩⟩,
    fun σ u c e s => ⟨OptOutDispatch.handleExprAs_eq u c e s, fun hc =>
      ⟨fun h => Expr.dispatch_of_tag h c e s hc, ?_⟩⟩⟩
  · have hmem : t ∈ OptOutDispatch.exprOverloads.map ExprClass.tag := ht
    obtain ⟨c, -, hc⟩ := List.mem_map.1 hmem
    exact ⟨c, hc.symm⟩
  · obtain ⟨c, rfl⟩ := ht
    cases c <;> decide
  · rw [Expr.dispatch_of_tag _ c e s hc]
    exact OptOutDispatch.handleExprAs_eq u c e s

/-- Witness of C13: the twenty-first Operation method, the one for grid Welford, is
called by the `case` of its tag. -/
theorem optOut_method_surface_matches_table_witness :
    OptOutDispatch.exprOverloads.length = 21 ∧
      Expr.dispatch (OptOutDispatch.base loggingHook) (Expr.mk 9 .GridWelford) [] =
        loggingHook (.expr (Expr.mk 9 .GridWelford)) [] :=
  ⟨optOut_method_surface_matches_table.2.1.2.2,
   ((optOut_method_surface_matches_table.2.2.2 (List Statement) loggingHook
      .GridWelford (Expr.mk 9 .GridWelford) []).2 rfl).2⟩

/-- The texts made from two printed tags are equal only if the printed tags are. -/
theorem handleNotOverriden_inj (a b : String)
    (h : handleNotOverriden a = handleNotOverriden b) : a = b := by
  have h2 := congrArg String.data h
  simp only [handleNotOverriden, String.data_append] at h2
  exact String.ext (List.append_cancel_left (List.append_cancel_right h2))

/-- The read-only opt-in hook is the same function as the mutable one. -/
theorem OptInConstDispatch.unhandled_eq {σ : Type} (showExprType : ExprType → String)
    (showValType : ValType → String) (stmt : Statement) (s : σ) :
    OptInConstDispatch.unhandled showExprType showValType stmt s =
      OptInDispatch.unhandled showExprType showValType stmt s := by
  cases stmt <;> rfl

/-- C14: for every node that is a Value or an Operation, the opt-in hooks
`OptInDispatch::unhandled` and `OptInConstDispatch::unhandled` fail fatally and never
return normally; the diagnostic is "Handle not overriden for ", the printed tag and
".", the tag being the Operation tag of an Operation and the (coarse) Value tag of a
Value. The printers of tags are parameters. -/
theorem optIn_unhandled_fails_with_tag {σ : Type} (showExprType : ExprType → String)
    (showValType : ValType → String) (v : Val) (e : Expr) (stmt : Statement) (s : σ) :
    OptInDispatch.unhandled showExprType showValType (.expr e) s =
      .threw ("Handle not overriden for " ++ showExprType e.etype ++ ".") s ∧
    OptInDispatch.unhandled showExprType showValType (.val v) s =
      .threw ("Handle not overriden for " ++ showValType v.vtype ++ ".") s ∧
    OptInConstDispatch.unhandled showExprType showValType (.expr e) s =
      .threw ("Handle not overriden for " ++ showExprType e.etype ++ ".") s ∧
    OptInConstDispatch.unhandled showExprType showValType (.val v) s =
      .threw ("Handle not overriden for " ++ showValType v.vtype ++ ".") s ∧
    ((stmt.isVal = true ∨ stmt.isExpr = true) →
      (∃ what, OptInDispatch.unhandled showExprType showValType stmt s =
          .threw what s ∧
        OptInConstDispatch.unhandled showExprType showValType stmt s =
          .threw what s) ∧
      ∀ t : σ,
        OptInDispatch.unhandled showExprType showValType stmt s ≠ .returned () t ∧
        OptInConstDispatch.unhandled showExprType showValType stmt s ≠
          .returned () t) := by
  refine ⟨rfl, rfl, rfl, rfl, fun hcat => ?_⟩
  cases stmt with
  | val w =>
    exact ⟨⟨_, rfl, rfl⟩, fun t => ⟨fun h => Outcome.noConfusion h,
      fun h => Outcome.noConfusion h⟩⟩
  | expr w =>
    exact ⟨⟨_, rfl, rfl⟩, fun t => ⟨fun h => Outcome.noConfusion h,
      fun h => Outcome.noConfusion h⟩⟩
  | bare n => simp [Statement.isVal, Statement.isExpr] at hcat

/-- Witness of C14: a for-loop and a tensor view, with the printers that spell the
tags. -/
theorem optIn_unhandled_fails_with_tag_witness :
    OptInDispatch.unhandled ExprType.spell ValType.spell
        (.expr (Expr.mk 1 .ForLoop)) () =
      .threw "Handle not overriden for ForLoop." () ∧
    OptInConstDispatch.unhandled ExprType.spell ValType.spell
        (.val (Val.mk 2 .TensorView .Double)) () =
      .threw "Handle not overriden for TensorView." () :=
  ⟨(optIn_unhandled_fails_with_tag ExprType.spell ValType.spell
      (Val.mk 2 .TensorView .Double) (Expr.mk 1 .ForLoop) (.bare 0) ()).1,
   (optIn_unhandled_fails_with_tag ExprType.spell ValType.spell
      (Val.mk 2 .TensorView .Double) (Expr.mk 1 .ForLoop) (.bare 0) ()).2.2.2.1⟩

/-- C15, as stated, fails: a boolean scalar and an integer scalar are nodes of
different variants, and `OptInDispatch::unhandled` produces the same diagnostic for
both. -/
theorem optIn_unhandled_conflates_scalars :
    (Val.mk 1 .Scalar .Bool).carries .Bool ∧ (Val.mk 2 .Scalar .Int).carries .Int ∧
    ValClass.Bool ≠ ValClass.Int ∧
    OptInDispatch.unhandled ExprType.spell ValType.spell
        (.val (Val.mk 1 .Scalar .Bool)) () =
      .threw "Handle not overriden for Scalar." () ∧
    OptInDispatch.unhandled ExprType.spell ValType.spell
        (.val (Val.mk 2 .Scalar .Int)) () =
      .threw "Handle not overriden for Scalar." () ∧
    OptInDispatch.unhandled ExprType.spell ValType.spell
        (.val (Val.mk 1 .Scalar .Bool)) () =
      OptInDispatch.unhandled ExprType.spell ValType.spell
        (.val (Val.mk 2 .Scalar .Int)) () :=
  ⟨⟨rfl, by simp [ValClass.kind]⟩, ⟨rfl, by simp [ValClass.kind]⟩, by decide,
    by decide, by decide, rfl⟩

/-- C15, amended: the opt-in diagnostic reports the tag the hook prints, which is the
Operation tag of an Operation and the coarse Value tag of a Value. Two nodes get the
same outcome from `OptInDispatch::unhandled` exactly when their printed tags are the
same text; so two Operations, or two Values, whose tags print differently get different
diagnostics, while two Values with the coarse tag `Scalar` get the same diagnostic
whatever their data kinds are. -/
theorem optIn_unhandled_reports_printed_tag {σ : Type}
    (showExprType : ExprType → String) (showValType : ValType → String)
    (n1 n2 : Statement) (s : σ) :
    (OptInDispatch.unhandled showExprType showValType n1 s =
        OptInDispatch.unhandled showExprType showValType n2 s ↔
      n1.printedTag showExprType showValType =
        n2.printedTag showExprType showValType) ∧
    (∀ e1 e2 : Expr, showExprType e1.etype ≠ showExprType e2.etype →
      OptInDispatch.unhandled showExprType showValType (.expr e1) s ≠
        OptInDispatch.unhandled showExprType showValType (.expr e2) s) ∧
    (∀ v1 v2 : Val, showValType v1.vtype ≠ showValType v2.vtype →
      OptInDispatch.unhandled showExprType showValType (.val v1) s ≠
        OptInDispatch.unhandled showExprType showValType (.val v2) s) ∧
    (∀ v1 v2 : Val, v1.vtype = .Scalar → v2.vtype = .Scalar →
      OptInDispatch.unhandled showExprType showValType (.val v1) s =
        OptInDispatch.unhandled showExprType showValType (.val v2) s) := by
  have key : ∀ a b : String,
      (Outcome.threw (handleNotOverriden a) s : Outcome σ Unit) =
        .threw (handleNotOverriden b) s ↔ a = b := by
    intro a b
    constructor
    · intro h
      simp only [Outcome.threw.injEq, and_true] at h
      exact handleNotOverriden_inj a b h
    · rintro rfl
      rfl
  refine ⟨?_, ?_, ?_, ?_⟩
  · cases n1 <;> cases n2 <;>
      simp [OptInDispatch.unhandled, torchInternalAssert, Statement.printedTag, key]
  · intro e1 e2 hne h
    exact hne ((key _ _).1 h)
  · intro v1 v2 hne h
    exact hne ((key _ _).1 h)
  · intro v1 v2 h1 h2
    simp [OptInDispatch.unhandled, h1, h2]

/-- Witness of C15, amended: a unary and a binary operation get different
diagnostics with the printers that spell the tags. -/
theorem optIn_unhandled_reports_printed_tag_witness :
    OptInDispatch.unhandled ExprType.spell ValType.spell
        (.expr (Expr.mk 1 .UnaryOp)) () ≠
      OptInDispatch.unhandled ExprType.spell ValType.spell
        (.expr (Expr.mk 2 .BinaryOp)) () :=
  (optIn_unhandled_reports_printed_tag ExprType.spell ValType.spell (.bare 0) (.bare 0)
    ()).2.1 (Expr.mk 1 .UnaryOp) (Expr.mk 2 .BinaryOp) (by decide)

/-! ## Theorems: the end-to-end scenario and the mutator tables -/

/-- `handle(Statement*)` of the visitor that overrides `handle(Int*)` on an integer
scalar is one call of that override. -/
theorem binaryIntVisitor_on_int (v : Val) (hv : v.carries .Int) (log : List Invocation) :
    OptOutDispatch.handle binaryIntVisitor (.val v) log =
      .returned () (log ++ [.val .Int v]) := by
  show Val.dispatch binaryIntVisitor v log = _
  rw [Val.dispatch_of_carries _ .Int v log hv]
  rfl

/-- `handle(Statement*)` of the visitor that overrides `handle(BinaryOp*)` on a binary
operation is one call of that override. -/
theorem binaryIntVisitor_on_binaryOp (e : Expr) (he : e.etype = .BinaryOp)
    (log : List Invocation) :
    OptOutDispatch.handle binaryIntVisitor (.expr e) log =
      .returned () (log ++ [.expr .BinaryOp e]) := by
  show Expr.dispatch binaryIntVisitor e log = _
  rw [Expr.dispatch_of_tag _ .BinaryOp e log he]
  rfl

/-- `handle(Statement*)` of the recording visitor on an integer scalar logs that one
invocation. -/
theorem recorder_on_int (v : Val) (hv : v.carries .Int) (log : List Invocation) :
    OptOutDispatch.handle recorder (.val v) log =
      .returned () (log ++ [.val .Int v]) := by
  show Val.dispatch recorder v log = _
  rw [Val.dispatch_of_carries _ .Int v log hv]
  rfl

/-- `handle(Statement*)` of the recording visitor on a binary operation logs that one
invocation. -/
theorem recorder_on_binaryOp (e : Expr) (he : e.etype = .BinaryOp)
    (log : List Invocation) :
    OptOutDispatch.handle recorder (.expr e) log =
      .returned () (log ++ [.expr .BinaryOp e]) := by
  show Expr.dispatch recorder e log = _
  rw [Expr.dispatch_of_tag _ .BinaryOp e log he]
  rfl

/-- C16: end to end, on the tree `add(x, mul(y, z))` with `x`, `y`, `z` distinct
integer scalars and `add`, `mul` distinct binary operations, the walk that calls
`handle(Statement*)` on each operation and then on each of its inputs, with a visitor
built on `OptOutDispatch` that overrides only the BinaryOp and the Int handler, returns
normally having run the BinaryOp handler on `add` and `mul` and the Int handler on `x`,
`y`, `z`: 2 and 3 invocations, each node once. A visitor that records every variant
method records the same five invocations, so no other variant method runs. -/
theorem walk_add_mul_visits_each_node_once (add mul : Expr) (x y z : Val)
    (hadd : add.etype = .BinaryOp) (hmul : mul.etype = .BinaryOp)
    (hx : x.carries .Int) (hy : y.carries .Int) (hz : z.carries .Int)
    (hops : add ≠ mul) (hxy : x ≠ y) (hxz : x ≠ z) (hyz : y ≠ z) :
    walk binaryIntVisitor (addMulTree add mul x y z) [] =
      .returned () (addMulVisits add mul x y z) ∧
    walk recorder (addMulTree add mul x y z) [] =
      .returned () (addMulVisits add mul x y z) ∧
    ((addMulVisits add mul x y z).filter Invocation.isBinaryOp).length = 2 ∧
    ((addMulVisits add mul x y z).filter Invocation.isInt).length = 3 ∧
    (addMulVisits add mul x y z).Nodup ∧
    (∀ i ∈ addMulVisits add mul x y z, i.isBinaryOp = true ∨ i.isInt = true) := by
  refine ⟨?_, ?_, rfl, rfl, ?_, ?_⟩
  · simp [walk, walkAll, addMulTree, addMulVisits, Outcome.andThen,
      binaryIntVisitor_on_int _ hx, binaryIntVisitor_on_int _ hy,
      binaryIntVisitor_on_int _ hz, binaryIntVisitor_on_binaryOp _ hadd,
      binaryIntVisitor_on_binaryOp _ hmul]
  · simp [walk, walkAll, addMulTree, addMulVisits, Outcome.andThen,
      recorder_on_int _ hx, recorder_on_int _ hy, recorder_on_int _ hz,
      recorder_on_binaryOp _ hadd, recorder_on_binaryOp _ hmul]
  · simp [addMulVisits, hops, hxy, hxz, hyz]
  · intro i hi
    simp only [addMulVisits, List.mem_cons, List.mem_singleton, List.not_mem_nil,
      or_false] at hi
    rcases hi with rfl | rfl | rfl | rfl | rfl <;> simp [Invocation.isBinaryOp,
      Invocation.isInt]

/-- Witness of C16: the integer scalars 1, 2, 3 under the operations 10 and 11. -/
theorem walk_add_mul_visits_each_node_once_witness :
    walk binaryIntVisitor
        (addMulTree (Expr.mk 10 .BinaryOp) (Expr.mk 11 .BinaryOp)
          (Val.mk 1 .Scalar .Int) (Val.mk 2 .Scalar .Int) (Val.mk 3 .Scalar .Int)) [] =
      .returned ()
        [.expr .BinaryOp (Expr.mk 10 .BinaryOp), .val .Int (Val.mk 1 .Scalar .Int),
         .expr .BinaryOp (Expr.mk 11 .BinaryOp), .val .Int (Val.mk 2 .Scalar .Int),
         .val .Int (Val.mk 3 .Scalar .Int)] :=
  (walk_add_mul_visits_each_node_once (Expr.mk 10 .BinaryOp) (Expr.mk 11 .BinaryOp)
    (Val.mk 1 .Scalar .Int) (Val.mk 2 .Scalar .Int) (Val.mk 3 .Scalar .Int)
    rfl rfl ⟨rfl, by simp [ValClass.kind]⟩ ⟨rfl, by simp [ValClass.kind]⟩
    ⟨rfl, by simp [ValClass.kind]⟩ (by decide) (by decide) (by decide) (by decide)).1

/-- C17: with no variant method overridden (each returns its input node, as §4.4 says)
and an empty mutation record, the mutator is the identity: for every node with a known
variant tag, `OptOutMutator::mutate` on the node, and `mutate(Val*)` or `mutate(Expr*)`
on it as a Value or an Operation, return the node itself and leave the mutator as it
was. -/
theorem mutate_base_is_identity {ε : Type} (stmt : Statement) (hk : stmt.hasKnownTag)
    (ext : ε) :
    OptOutMutator.mutate (OptOutMutator.base ε) stmt ⟨[], ext⟩ =
      .returned stmt ⟨[], ext⟩ ∧
    (∀ v : Val, stmt = .val v →
      OptOutMutator.mutateVal (OptOutMutator.base ε) v ⟨[], ext⟩ =
        .returned (.val v) ⟨[], ext⟩) ∧
    (∀ e : Expr, stmt = .expr e →
      OptOutMutator.mutateExpr (OptOutMutator.base ε) e ⟨[], ext⟩ =
        .returned (.expr e) ⟨[], ext⟩) := by
  have h : OptOutMutator.mutate (OptOutMutator.base ε) stmt ⟨[], ext⟩ =
      .returned stmt ⟨[], ext⟩ := by
    cases stmt with
    | val v =>
      obtain ⟨c, hc⟩ := Val.carries_of_known v hk
      show OptOutMutator.mutateVal (OptOutMutator.base ε) v ⟨[], ext⟩ = _
      simp [OptOutMutator.mutateVal, Mutations.find,
        Val.mutatorDispatch_of_carries _ c v _ hc, OptOutMutator.base]
    | expr e =>
      obtain ⟨c, hc⟩ := hk
      show Expr.mutatorDispatch (OptOutMutator.base ε) e ⟨[], ext⟩ = _
      rw [Expr.mutatorDispatch_of_tag _ c e _ hc]
      rfl
    | bare n => exact absurd hk (by simp [Statement.hasKnownTag])
  refine ⟨h, ?_, ?_⟩
  · rintro v rfl
    exact h
  · rintro e rfl
    exact h

/-- Witness of C17: an iteration domain and a transpose. -/
theorem mutate_base_is_identity_witness :
    OptOutMutator.mutate (OptOutMutator.base Unit)
        (.val (Val.mk 1 .IterDomain .Int)) ⟨[], ()⟩ =
      .returned (.val (Val.mk 1 .IterDomain .Int)) ⟨[], ()⟩ ∧
    OptOutMutator.mutate (OptOutMutator.base Unit)
        (.expr (Expr.mk 2 .TransposeOp)) ⟨[], ()⟩ =
      .returned (.expr (Expr.mk 2 .TransposeOp)) ⟨[], ()⟩ :=
  ⟨(mutate_base_is_identity (.val (Val.mk 1 .IterDomain .Int))
      (by simp [Statement.hasKnownTag, Val.unknownTag, ValType.isKnown]) ()).1,
   (mutate_base_is_identity (.expr (Expr.mk 2 .TransposeOp))
      ⟨.TransposeOp, rfl⟩ ()).1⟩

/-- `Val::mutatorDispatch` raises its own failure, for every mutator, on the unknown
tags. -/
theorem val_mutatorDispatch_of_unknown {σ : Type} (m : VariantMutator σ) (v : Val)
    (s : σ) (hv : v.unknownTag) :
    Val.mutatorDispatch m v s = .threw unknownValtype s := by
  rcases v with ⟨n, vt, dt⟩
  cases vt <;> cases dt <;>
    simp [Val.unknownTag, ValType.isKnown, DataType.isScalarKind] at hv <;>
    simp [Val.mutatorDispatch]

/-- `Expr::mutatorDispatch` raises its own failure, for every mutator, on the unknown
tags. -/
theorem expr_mutatorDispatch_of_unknown {σ : Type} (m : VariantMutator σ) (e : Expr)
    (s : σ) (he : ¬ e.etype.isKnown) :
    Expr.mutatorDispatch m e s = .threw unknownExprtype s := by
  rcases e with ⟨n, et⟩
  by_cases hk : ∀ k, et ≠ .other k
  · exact absurd (ExprType.isKnown_of_ne_other et hk) he
  · push_neg at hk
    obtain ⟨k, rfl⟩ := hk
    rfl

/-- C18: the mutator dispatch tables agree with the visitor dispatch tables. For every
Value, either its tags are those of a variant `c`, and then `Val::dispatch` calls the
`handle` overload of `c` and `Val::mutatorDispatch` the `mutate` overload of the same
`c`, or its tags are unknown, and then both fail with "Unknown valtype in dispatch!";
the same for every Operation with `Expr::dispatch`, `Expr::mutatorDispatch` and
"Unknown exprtype in dispatch!"; and `Statement::mutatorDispatch` hands a Value to
`mutate(Val*)`, an Operation to `mutate(Expr*)` and fails with "Unknown stmttype in
dispatch!" on any other node, as `Statement::dispatch` does with `handle`. -/
theorem mutatorDispatch_agrees_with_dispatch (v : Val) (e : Expr) (stmt : Statement) :
    ((∃ c : ValClass, v.carries c ∧
        (∀ (σ : Type) (h : VariantHandler σ) (s : σ),
          Val.dispatch h v s = h.handleValAs c v s) ∧
        (∀ (σ : Type) (m : VariantMutator σ) (s : σ),
          Val.mutatorDispatch m v s = m.mutateValAs c v s)) ∨
      (v.unknownTag ∧
        (∀ (σ : Type) (h : VariantHandler σ) (s : σ),
          Val.dispatch h v s = .threw unknownValtype s) ∧
        (∀ (σ : Type) (m : VariantMutator σ) (s : σ),
          Val.mutatorDispatch m v s = .threw unknownValtype s))) ∧
    ((∃ c : ExprClass, e.etype = c.tag ∧
        (∀ (σ : Type) (h : VariantHandler σ) (s : σ),
          Expr.dispatch h e s = h.handleExprAs c e s) ∧
        (∀ (σ : Type) (m : VariantMutator σ) (s : σ),
          Expr.mutatorDispatch m e s = m.mutateExprAs c e s)) ∨
      (¬ e.etype.isKnown ∧
        (∀ (σ : Type) (h : VariantHandler σ) (s : σ),
          Expr.dispatch h e s = .threw unknownExprtype s) ∧
        (∀ (σ : Type) (m : VariantMutator σ) (s : σ),
          Expr.mutatorDispatch m e s = .threw unknownExprtype s))) ∧
    ((∀ w : Val, stmt = .val w →
        (∀ (σ : Type) (h : Handler σ) (s : σ),
          Statement.dispatch h stmt s = h.handleVal w s) ∧
        (∀ (σ : Type) (m : Mutator σ) (s : σ),
          Statement.mutatorDispatch m stmt s = m.mutateVal w s)) ∧
      (∀ w : Expr, stmt = .expr w →
        (∀ (σ : Type) (h : Handler σ) (s : σ),
          Statement.dispatch h stmt s = h.handleExpr w s) ∧
        (∀ (σ : Type) (m : Mutator σ) (s : σ),
          Statement.mutatorDispatch m stmt s = m.mutateExpr w s)) ∧
      (stmt.isVal = false → stmt.isExpr = false →
        (∀ (σ : Type) (h : Handler σ) (s : σ),
          Statement.dispatch h stmt s = .threw unknownStmttype s) ∧
        (∀ (σ : Type) (m : Mutator σ) (s : σ),
          Statement.mutatorDispatch m stmt s = .threw unknownStmttype s))) := by
  refine ⟨?_, ?_, ?_, ?_, ?_⟩
  · by_cases hv : v.unknownTag
    · exact Or.inr ⟨hv, (val_dispatch_threw_iff v).2 hv,
        fun σ m s => val_mutatorDispatch_of_unknown m v s hv⟩
    · obtain ⟨c, hc⟩ := Val.carries_of_known v hv
      exact Or.inl ⟨c, hc, fun σ h s => Val.dispatch_of_carries h c v s hc,
        fun σ m s => Val.mutatorDispatch_of_carries m c v s hc⟩
  · by_cases he : e.etype.isKnown
    · obtain ⟨c, hc⟩ := he
      exact Or.inl ⟨c, hc, fun σ h s => Expr.dispatch_of_tag h c e s hc,
        fun σ m s => Expr.mutatorDispatch_of_tag m c e s hc⟩
    · exact Or.inr ⟨he, (expr_dispatch_threw_iff e).2 he,
        fun σ m s => expr_mutatorDispatch_of_unknown m e s he⟩
  · rintro w rfl
    exact ⟨fun _ _ _ => rfl, fun _ _ _ => rfl⟩
  · rintro w rfl
    exact ⟨fun _ _ _ => rfl, fun _ _ _ => rfl⟩
  · intro h1 h2
    cases stmt with
    | val w => simp [Statement.isVal] at h1
    | expr w => simp [Statement.isExpr] at h2
    | bare n => exact ⟨fun _ _ _ => rfl, fun _ _ _ => rfl⟩

/-- Witness of C18: on a bare statement both tables fail with the same message, and
on a merge the recording visitor and the recording mutator log the same invocation. -/
theorem mutatorDispatch_agrees_with_dispatch_witness :
    Statement.dispatch (OptOutDispatch.this recorder) (.bare 3) [] =
        .threw unknownStmttype [] ∧
      Statement.mutatorDispatch (OptOutMutator.this recordingMutator) (.bare 3)
        ⟨[], []⟩ = .threw unknownStmttype ⟨[], []⟩ :=
  ⟨((mutatorDispatch_agrees_with_dispatch (Val.mk 0 .Scalar .Int)
      (Expr.mk 0 .Merge) (.bare 3)).2.2.2.2 rfl rfl).1 _ _ _,
   ((mutatorDispatch_agrees_with_dispatch (Val.mk 0 .Scalar .Int)
      (Expr.mk 0 .Merge) (.bare 3)).2.2.2.2 rfl rfl).2 _ _ _⟩

/-- C19: on a statement that is neither a Value nor an Operation,
`OptInDispatch::unhandled` and `OptInConstDispatch::unhandled` return normally and
leave the visitor as it was: the condition of the assertion in the last branch is the
string literal, which holds. -/
theorem optIn_unhandled_returns_on_bare_statement {σ : Type}
    (showExprType : ExprType → String) (showValType : ValType → String)
    (stmt : Statement) (s : σ) (h1 : stmt.isVal = false) (h2 : stmt.isExpr = false) :
    OptInDispatch.unhandled showExprType showValType stmt s = .returned () s ∧
    OptInConstDispatch.unhandled showExprType showValType stmt s = .returned () s := by
  cases stmt with
  | val w => simp [Statement.isVal] at h1
  | expr w => simp [Statement.isExpr] at h2
  | bare n => exact ⟨rfl, rfl⟩

/-- Witness of C19: the bare statement 0. -/
theorem optIn_unhandled_returns_on_bare_statement_witness :
    OptInDispatch.unhandled ExprType.spell ValType.spell (.bare 0) () =
        .returned () () ∧
      OptInConstDispatch.unhandled ExprType.spell ValType.spell (.bare 0) () =
        .returned () () :=
  optIn_unhandled_returns_on_bare_statement ExprType.spell ValType.spell (.bare 0) ()
    rfl rfl

/-- A key of the record has a mapped value. -/
theorem Mutations.find_of_isKey (m : Mutations) (v : Val) (hv : Mutations.isKey m v) :
    ∃ b, Mutations.find m v = some b := by
  cases hf : Mutations.find m v with
  | none => exact absurd hv ((Mutations.find_eq_none_iff m v).1 hf)
  | some b => exact ⟨b, rfl⟩

/-- C20: the lookup in the mutation record of `OptOutMutator::mutate(Val*)` precedes
any tag read. For every Value `v` that is a key of the record, `mutate(v)` returns the
recorded replacement and leaves the mutator as it was, whatever the variant methods
and whatever the tags of `v`; when the tags of `v` match no known variant,
`Val::mutatorDispatch` alone on `v` fails with "Unknown valtype in dispatch!". -/
theorem mutate_registered_ignores_tags {ε : Type}
    (self : VariantMutator (MutatorState ε)) (v : Val) (s : MutatorState ε)
    (hkey : Mutations.isKey s.mutations v) :
    (∃ b, Mutations.find s.mutations v = some b ∧
      OptOutMutator.mutateVal self v s = .returned (.val b) s) ∧
    (∀ what t, OptOutMutator.mutateVal self v s ≠ .threw what t) ∧
    (v.unknownTag → Val.mutatorDispatch self v s = .threw unknownValtype s) := by
  obtain ⟨b, hb⟩ := Mutations.find_of_isKey s.mutations v hkey
  have hm : OptOutMutator.mutateVal self v s = .returned (.val b) s := by
    simp [OptOutMutator.mutateVal, hb]
  refine ⟨⟨b, hb, hm⟩, fun what t h => ?_,
    fun hv => val_mutatorDispatch_of_unknown self v s hv⟩
  rw [hm] at h
  exact Outcome.noConfusion h

/-- Witness of C20: a registered Value whose coarse tag is unknown, on the recording
mutator: `mutate` returns the replacement, the dispatch alone fails. -/
theorem mutate_registered_ignores_tags_witness :
    OptOutMutator.mutateVal recordingMutator (Val.mk 1 (.other 7) .Int)
          ⟨[(Val.mk 1 (.other 7) .Int, Val.mk 2 .Scalar .Int)], []⟩ =
        .returned (.val (Val.mk 2 .Scalar .Int))
          ⟨[(Val.mk 1 (.other 7) .Int, Val.mk 2 .Scalar .Int)], []⟩ ∧
      Val.mutatorDispatch recordingMutator (Val.mk 1 (.other 7) .Int)
          ⟨[(Val.mk 1 (.other 7) .Int, Val.mk 2 .Scalar .Int)], []⟩ =
        .threw unknownValtype
          ⟨[(Val.mk 1 (.other 7) .Int, Val.mk 2 .Scalar .Int)], []⟩ := by
  have h := mutate_registered_ignores_tags recordingMutator (Val.mk 1 (.other 7) .Int)
    ⟨[(Val.mk 1 (.other 7) .Int, Val.mk 2 .Scalar .Int)], []⟩
    (by simp [Mutations.isKey])
  obtain ⟨⟨b, hb, hm⟩, -, hd⟩ := h
  have hb2 : Val.mk 2 .Scalar .Int = b := by
    simpa [Mutations.find] using hb
  subst hb2
  exact ⟨hm, hd (Or.inl (by simp [ValType.isKnown]))⟩

/-! ## Theorems: chains of substitutions -/

/-- On a Value that is not a key, `registerMutation` returns, having assigned the
replacement in the record and nothing else. -/
theorem OptOutMutator.registerMutation_of_fresh {ε : Type} (original replacement : Val)
    (s : MutatorState ε) (hfresh : ¬ Mutations.isKey s.mutations original) :
    OptOutMutator.registerMutation original replacement s =
      .returned () ⟨Mutations.assign s.mutations original replacement, s.ext⟩ := by
  have hf := (Mutations.find_eq_none_iff _ _).2 hfresh
  simp [OptOutMutator.registerMutation, hf]

/-- When the lookup finds an entry, `mutate(Val*)` returns its mapped value and leaves
the mutator as it was. -/
theorem OptOutMutator.mutateVal_of_find {ε : Type}
    (self : VariantMutator (MutatorState ε)) (v r : Val) (s : MutatorState ε)
    (hf : Mutations.find s.mutations v = some r) :
    OptOutMutator.mutateVal self v s = .returned (.val r) s := by
  simp [OptOutMutator.mutateVal, hf]

/-- C21: `OptOutMutator::mutate(Val*)` looks up once and does not follow chains. If
the record maps `a` to `b` and `b` to `c` with `b` different from `c`, then `mutate(a)`
returns `b`, not `c`, and `mutate(b)` returns `c`, both leaving the mutator as it was.
`registerMutation` accepts such a chain: from a state in which the distinct Values `a`
and `b` are not keys, `registerMutation(a, b)` and then `registerMutation(b, c)` both
return, and the record then maps `a` to `b` and `b` to `c`. It accepts a self-mapping
too: when `a` is not a key, `registerMutation(a, a)` returns, and `mutate(a)` then
returns `a`. -/
theorem mutate_does_not_follow_chains {ε : Type}
    (self : VariantMutator (MutatorState ε)) (a b c : Val) (s : MutatorState ε)
    (hab : Mutations.find s.mutations a = some b)
    (hbc : Mutations.find s.mutations b = some c) (hne : b ≠ c) :
    OptOutMutator.mutateVal self a s = .returned (.val b) s ∧
    OptOutMutator.mutateVal self a s ≠ .returned (.val c) s ∧
    OptOutMutator.mutateVal self b s = .returned (.val c) s ∧
    a ≠ b ∧
    (∀ s0 : MutatorState ε, ¬ Mutations.isKey s0.mutations a →
      ¬ Mutations.isKey s0.mutations b →
      ∃ s1 s2, OptOutMutator.registerMutation a b s0 = .returned () s1 ∧
        OptOutMutator.registerMutation b c s1 = .returned () s2 ∧
        Mutations.find s2.mutations a = some b ∧
        Mutations.find s2.mutations b = some c ∧
        OptOutMutator.mutateVal self a s2 = .returned (.val b) s2 ∧
        OptOutMutator.mutateVal self b s2 = .returned (.val c) s2) ∧
    (∀ s0 : MutatorState ε, ¬ Mutations.isKey s0.mutations a →
      ∃ s1, OptOutMutator.registerMutation a a s0 = .returned () s1 ∧
        Mutations.find s1.mutations a = some a ∧
        OptOutMutator.mutateVal self a s1 = .returned (.val a) s1) := by
  have hma := OptOutMutator.mutateVal_of_find self a b s hab
  have hneab : a ≠ b := by
    rintro rfl
    rw [hab] at hbc
    exact hne (Option.some.inj hbc)
  refine ⟨hma, ?_, OptOutMutator.mutateVal_of_find self b c s hbc, hneab, ?_, ?_⟩
  · rw [hma]
    intro h
    simp only [Outcome.returned.injEq, Statement.val.injEq, and_true] at h
    exact hne h
  · intro s0 ha hb
    have h1 := OptOutMutator.registerMutation_of_fresh a b s0 ha
    have hb1 : ¬ Mutations.isKey (Mutations.assign s0.mutations a b) b := by
      rw [← Mutations.find_eq_none_iff,
        Mutations.find_assign_other _ _ _ b (fun h => hneab h.symm)]
      exact (Mutations.find_eq_none_iff _ _).2 hb
    have h2 := OptOutMutator.registerMutation_of_fresh b c
      (⟨Mutations.assign s0.mutations a b, s0.ext⟩ : MutatorState ε) hb1
    have hfa : Mutations.find
        (Mutations.assign (Mutations.assign s0.mutations a b) b c) a = some b := by
      rw [Mutations.find_assign_other _ _ _ a hneab]
      exact Mutations.find_assign_self _ _ _
    have hfb : Mutations.find
        (Mutations.assign (Mutations.assign s0.mutations a b) b c) b = some c :=
      Mutations.find_assign_self _ _ _
    exact ⟨_, _, h1, h2, hfa, hfb,
      OptOutMutator.mutateVal_of_find self a b _ hfa,
      OptOutMutator.mutateVal_of_find self b c _ hfb⟩
  · intro s0 ha
    have h1 := OptOutMutator.registerMutation_of_fresh a a s0 ha
    have hfa : Mutations.find (Mutations.assign s0.mutations a a) a = some a :=
      Mutations.find_assign_self _ _ _
    exact ⟨_, h1, hfa, OptOutMutator.mutateVal_of_find self a a _ hfa⟩

/-- Witness of C21: the record maps scalar 1 to scalar 2 and scalar 2 to scalar 3; on
the recording mutator `mutate` of scalar 1 returns scalar 2 and `mutate` of scalar 2
returns scalar 3, and nothing is logged. -/
theorem mutate_does_not_follow_chains_witness :
    OptOutMutator.mutateVal recordingMutator (Val.mk 1 .Scalar .Int)
          ⟨[(Val.mk 1 .Scalar .Int, Val.mk 2 .Scalar .Int),
            (Val.mk 2 .Scalar .Int, Val.mk 3 .Scalar .Int)], []⟩ =
        .returned (.val (Val.mk 2 .Scalar .Int))
          ⟨[(Val.mk 1 .Scalar .Int, Val.mk 2 .Scalar .Int),
            (Val.mk 2 .Scalar .Int, Val.mk 3 .Scalar .Int)], []⟩ ∧
      OptOutMutator.mutateVal recordingMutator (Val.mk 2 .Scalar .Int)
          ⟨[(Val.mk 1 .Scalar .Int, Val.mk 2 .Scalar .Int),
            (Val.mk 2 .Scalar .Int, Val.mk 3 .Scalar .Int)], []⟩ =
        .returned (.val (Val.mk 3 .Scalar .Int))
          ⟨[(Val.mk 1 .Scalar .Int, Val.mk 2 .Scalar .Int),
            (Val.mk 2 .Scalar .Int, Val.mk 3 .Scalar .Int)], []⟩ :=
  have h := mutate_does_not_follow_chains recordingMutator (Val.mk 1 .Scalar .Int)
    (Val.mk 2 .Scalar .Int) (Val.mk 3 .Scalar .Int)
    ⟨[(Val.mk 1 .Scalar .Int, Val.mk 2 .Scalar .Int),
      (Val.mk 2 .Scalar .Int, Val.mk 3 .Scalar .Int)], []⟩
    (by decide) (by decide) (by decide)
  ⟨h.1, h.2.2.1⟩

/-! ## Theorems: when dispatch fails -/

/-- With a handler whose Value overloads return normally, `Val::dispatch` throws only
on unknown tags, and then its own message in the state as found. -/
theorem val_dispatch_threw_exactly {σ : Type} (h : VariantHandler σ)
    (hret : ∀ c w t, ∃ u, h.handleValAs c w t = .returned () u)
    (v : Val) (s : σ) (what : String) (t : σ) :
    Val.dispatch h v s = .threw what t ↔
      (v.unknownTag ∧ what = unknownValtype ∧ t = s) := by
  by_cases hv : v.unknownTag
  · rw [(val_dispatch_threw_iff v).2 hv σ h s]
    constructor
    · intro heq
      simp only [Outcome.threw.injEq] at heq
      exact ⟨hv, heq.1.symm, heq.2.symm⟩
    · rintro ⟨-, rfl, rfl⟩
      rfl
  · obtain ⟨c, hc⟩ := Val.carries_of_known v hv
    obtain ⟨u, hu⟩ := hret c v s
    rw [Val.dispatch_of_carries h c v s hc, hu]
    constructor
    · intro heq
      exact Outcome.noConfusion heq
    · rintro ⟨hv2, -, -⟩
      exact absurd hv2 hv

/-- With a handler whose Operation overloads return normally, `Expr::dispatch` throws
only on unknown tags, and then its own message in the state as found. -/
theorem expr_dispatch_threw_exactly {σ : Type} (h : VariantHandler σ)
    (hret : ∀ c w t, ∃ u, h.handleExprAs c w t = .returned () u)
    (e : Expr) (s : σ) (what : String) (t : σ) :
    Expr.dispatch h e s = .threw what t ↔
      (¬ e.etype.isKnown ∧ what = unknownExprtype ∧ t = s) := by
  by_cases he : e.etype.isKnown
  · obtain ⟨c, hc⟩ := he
    obtain ⟨u, hu⟩ := hret c e s
    rw [Expr.dispatch_of_tag h c e s hc, hu]
    constructor
    · intro heq
      exact Outcome.noConfusion heq
    · rintro ⟨hk, -, -⟩
      exact absurd ⟨c, hc⟩ hk
  · rw [(expr_dispatch_threw_iff e).2 he σ h s]
    constructor
    · intro heq
      simp only [Outcome.threw.injEq] at heq
      exact ⟨he, heq.1.symm, heq.2.symm⟩
    · rintro ⟨-, rfl, rfl⟩
      rfl

/-- With a handler whose umbrella overloads return normally, `Statement::dispatch`
throws only on a node that is neither a Value nor an Operation, and then its own
message in the state as found. -/
theorem stmt_dispatch_threw_exactly {σ : Type} (h : Handler σ)
    (hval : ∀ w t, ∃ u, h.handleVal w t = .returned () u)
    (hexpr : ∀ w t, ∃ u, h.handleExpr w t = .returned () u)
    (stmt : Statement) (s : σ) (what : String) (t : σ) :
    Statement.dispatch h stmt s = .threw what t ↔
      (stmt.isVal = false ∧ stmt.isExpr = false ∧ what = unknownStmttype ∧ t = s) := by
  cases stmt with
  | val w =>
    obtain ⟨u, hu⟩ := hval w s
    show h.handleVal w s = _ ↔ _
    rw [hu]
    simp [Statement.isVal]
  | expr w =>
    obtain ⟨u, hu⟩ := hexpr w s
    show h.handleExpr w s = _ ↔ _
    rw [hu]
    simp [Statement.isExpr]
  | bare n =>
    show Outcome.threw unknownStmttype s = _ ↔ _
    simp only [Outcome.threw.injEq, Statement.isVal, Statement.isExpr, true_and]
    constructor
    · rintro ⟨h1, h2⟩
      exact ⟨h1.symm, h2.symm⟩
    · rintro ⟨rfl, rfl⟩
      exact ⟨rfl, rfl⟩

/-- C3: dispatch fails exactly when the tag matches no known variant, and then calls
no handler method.

On unknown tags (`Val`: the coarse tag is none of the 7 known cases, or it is `Scalar`
with a data kind other than Bool/Double/Int; `Expr`: the tag is none of the 21 known
cases; `Statement`: the node is neither a Value nor an Operation) the routine fails
with its message "Unknown valtype / exprtype / stmttype in dispatch!" for every
handler and leaves the handler state as found, so no handler method runs. On every
other tag the routine raises nothing of its own: its outcome is, for every handler,
the outcome of the one handler call it makes. Hence with any handler whose methods
return normally, and with the recording handler in particular, the routine throws if
and only if the tag is unknown, and what it throws is then its own message in the
state as found. The three messages are the texts the spec quotes, followed by an
exclamation mark. -/
theorem dispatch_fails_iff_tag_unknown (v : Val) (e : Expr) (stmt : Statement) :
    ((∀ (σ : Type) (h : VariantHandler σ) (s : σ),
        Val.dispatch h v s = .threw unknownValtype s) ↔ v.unknownTag) ∧
    ((∀ (σ : Type) (h : VariantHandler σ) (s : σ),
        Expr.dispatch h e s = .threw unknownExprtype s) ↔ ¬ e.etype.isKnown) ∧
    ((∀ (σ : Type) (h : Handler σ) (s : σ),
        Statement.dispatch h stmt s = .threw unknownStmttype s) ↔
      (stmt.isVal = false ∧ stmt.isExpr = false)) ∧
    (unknownValtype = "Unknown valtype in dispatch" ++ "!" ∧
      unknownExprtype = "Unknown exprtype in dispatch" ++ "!" ∧
      unknownStmttype = "Unknown stmttype in dispatch" ++ "!") ∧
    (¬ v.unknownTag → ∃ c : ValClass, v.carries c ∧
      ∀ (σ : Type) (h : VariantHandler σ) (s : σ),
        Val.dispatch h v s = h.handleValAs c v s) ∧
    (e.etype.isKnown → ∃ c : ExprClass, e.etype = c.tag ∧
      ∀ (σ : Type) (h : VariantHandler σ) (s : σ),
        Expr.dispatch h e s = h.handleExprAs c e s) ∧
    (∀ w : Val, stmt = .val w → ∀ (σ : Type) (h : Handler σ) (s : σ),
      Statement.dispatch h stmt s = h.handleVal w s) ∧
    (∀ w : Expr, stmt = .expr w → ∀ (σ : Type) (h : Handler σ) (s : σ),
      Statement.dispatch h stmt s = h.handleExpr w s) ∧
    (∀ (σ : Type) (h : VariantHandler σ),
      (∀ c w t, ∃ u, h.handleValAs c w t = .returned () u) →
      ∀ (s : σ) (what : String) (t : σ),
        Val.dispatch h v s = .threw what t ↔
          (v.unknownTag ∧ what = unknownValtype ∧ t = s)) ∧
    (∀ (σ : Type) (h : VariantHandler σ),
      (∀ c w t, ∃ u, h.handleExprAs c w t = .returned () u) →
      ∀ (s : σ) (what : String) (t : σ),
        Expr.dispatch h e s = .threw what t ↔
          (¬ e.etype.isKnown ∧ what = unknownExprtype ∧ t = s)) ∧
    (∀ (σ : Type) (h : Handler σ),
      (∀ w t, ∃ u, h.handleVal w t = .returned () u) →
      (∀ w t, ∃ u, h.handleExpr w t = .returned () u) →
      ∀ (s : σ) (what : String) (t : σ),
        Statement.dispatch h stmt s = .threw what t ↔
          (stmt.isVal = false ∧ stmt.isExpr = false ∧ what = unknownStmttype ∧
            t = s)) ∧
    (∀ (log : List Invocation) (what : String) (t : List Invocation),
      (Val.dispatch recorder v log = .threw what t ↔
        (v.unknownTag ∧ what = unknownValtype ∧ t = log)) ∧
      (Expr.dispatch recorder e log = .threw what t ↔
        (¬ e.etype.isKnown ∧ what = unknownExprtype ∧ t = log))) := by
  refine ⟨val_dispatch_threw_iff v, expr_dispatch_threw_iff e,
    stmt_dispatch_threw_iff stmt, by decide, ?_, ?_, ?_, ?_, ?_, ?_, ?_, ?_⟩
  · intro hv
    obtain ⟨c, hc⟩ := Val.carries_of_known v hv
    exact ⟨c, hc, fun σ h s => Val.dispatch_of_carries h c v s hc⟩
  · rintro ⟨c, hc⟩
    exact ⟨c, hc, fun σ h s => Expr.dispatch_of_tag h c e s hc⟩
  · rintro w rfl σ h s
    rfl
  · rintro w rfl σ h s
    rfl
  · intro σ h hret s what t
    exact val_dispatch_threw_exactly h hret v s what t
  · intro σ h hret s what t
    exact expr_dispatch_threw_exactly h hret e s what t
  · intro σ h hval hexpr s what t
    exact stmt_dispatch_threw_exactly h hval hexpr stmt s what t
  · intro log what t
    exact ⟨val_dispatch_threw_exactly recorder (fun _ _ _ => ⟨_, rfl⟩) v log what t,
      expr_dispatch_threw_exactly recorder (fun _ _ _ => ⟨_, rfl⟩) e log what t⟩

/-- Witness of C3: with the recording handler, a tensor index and a grid Welford are
dispatched to their overloads and nothing is thrown, a Value with an unknown coarse
tag and a bare statement make the routines throw their own message with nothing
logged. -/
theorem dispatch_fails_iff_tag_unknown_witness :
    Val.dispatch recorder (Val.mk 1 .TensorIndex .Int) [] =
        recorder.handleValAs .TensorIndex (Val.mk 1 .TensorIndex .Int) [] ∧
      Expr.dispatch recorder (Expr.mk 2 .GridWelford) [] =
        recorder.handleExprAs .GridWelford (Expr.mk 2 .GridWelford) [] ∧
      ¬ Expr.dispatch recorder (Expr.mk 2 .GridWelford) [] =
        .threw unknownExprtype [] ∧
      Val.dispatch recorder (Val.mk 3 (.other 0) .Int) [] = .threw unknownValtype [] ∧
      Statement.dispatch (OptOutDispatch.this recorder) (.bare 4) [] =
        .threw unknownStmttype [] := by
  have hT := dispatch_fails_iff_tag_unknown (Val.mk 1 .TensorIndex .Int)
    (Expr.mk 2 .GridWelford) (.bare 4)
  have hU := dispatch_fails_iff_tag_unknown (Val.mk 3 (.other 0) .Int)
    (Expr.mk 2 .GridWelford) (.bare 4)
  obtain ⟨-, -, hstmt, -, hval, hexpr, -, -, -, -, -, hrec⟩ := hT
  obtain ⟨c, hc, hvd⟩ := hval (by simp [Val.unknownTag, ValType.isKnown])
  have hcT : c = .TensorIndex := by
    cases c <;> simp [Val.carries, ValClass.tag] at hc
    rfl
  subst hcT
  obtain ⟨k, hk, hed⟩ := hexpr ⟨.GridWelford, rfl⟩
  have hkG : k = .GridWelford := by
    cases k <;> simp [ExprClass.tag] at hk
    rfl
  subst hkG
  refine ⟨hvd _ recorder [], hed _ recorder [], ?_,
    hU.1.2 (Or.inl (by simp [ValType.isKnown])) _ recorder [],
    hstmt.2 ⟨rfl, rfl⟩ _ (OptOutDispatch.this recorder) []⟩
  intro hthrew
  exact ((hrec [] unknownExprtype []).2.1 hthrew).1 ⟨.GridWelford, rfl⟩

end Fuser
